import Mathlib

/-!
Verification of the asteroid-impact calculation pipeline.

This file is a shallow embedding, over the real numbers, of the physics core
of the repository: `src/physics/atmosphere.js`, `crater.js`, `waves.js`,
`thermal.js`, `seismic.js`, `tsunami.js`, the constant tables of
`src/utils/constants.js`, and the `ImpactCalculator` orchestrator of
`src/map/seismic-layers.js`.

Conventions of the embedding:
- JS numbers are modelled by `ℝ`.  `Math.pow(x, e)` with a fractional
  exponent is `Real.rpow`; `Math.pow(x, 2)` and other small integer
  exponents are the monoid power `x ^ 2` (the two agree on the
  non-negative bases that occur).  `Math.sqrt` is `Real.sqrt`,
  `Math.log` is `Real.log`, `Math.log10` is `Real.logb 10`,
  `Math.sin` is `Real.sin`, `Math.PI` is `Real.pi`, and
  `Math.min` / `Math.max` are `min` / `max`.
- `Math.max(...list)` over a possibly empty array is `List.maximum`
  into `WithBot ℝ`, whose bottom element stands for the `-Infinity`
  that JS produces on an empty argument list.
- `Array.prototype.sort(cmp)` with the numeric comparators used by the
  source is modelled by an insertion sort ascending in a real-valued key
  (for the zone comparator `(a, b) => b.radius - a.radius` the key is
  the negated radius).
- Objects whose fields exist only on some return paths are modelled with
  `Option` fields; a field that a branch does not set is `none`.
- The defensive `typeof location.latitude !== 'number'` checks of the
  seismic and tsunami stages cannot fire in this typed embedding, where a
  location is always a pair of reals, so the corresponding early-return
  branches are omitted (they are unreachable here).
-/

/-- A geographic location: `{latitude, longitude}` as used throughout the
source. -/
structure Location where
  latitude : ℝ
  longitude : ℝ

/-! ## Constants (`src/utils/constants.js`) -/

namespace PHYSICS_CONSTANTS

def EARTH_RADIUS : ℝ := 6371000

def EARTH_GRAVITY : ℝ := 9.81

def EARTH_CRUST_DENSITY : ℝ := 2700

def WATER_DENSITY : ℝ := 1000

def ATMOSPHERE_SCALE_HEIGHT : ℝ := 8400

def AIR_DENSITY_SEA_LEVEL : ℝ := 1.225

def TNT_EQUIVALENT : ℝ := 4.184e9

def SOUND_SPEED : ℝ := 343

def ROCK_MELTING_ENERGY : ℝ := 1.5e6

def SEISMIC_VELOCITY : ℝ := 6000

end PHYSICS_CONSTANTS

namespace DAMAGE_THRESHOLDS

namespace OVERPRESSURE

def LIGHT_DAMAGE : ℝ := 6895

def MODERATE_DAMAGE : ℝ := 34475

def HEAVY_DAMAGE : ℝ := 68950

def COMPLETE_DESTRUCTION : ℝ := 137900

end OVERPRESSURE

namespace THERMAL

def FIRST_DEGREE_BURN : ℝ := 25

def SECOND_DEGREE_BURN : ℝ := 37.5

def THIRD_DEGREE_BURN : ℝ := 62.5

end THERMAL

end DAMAGE_THRESHOLDS

/-! ## AtmosphereCalculator (`src/physics/atmosphere.js`) -/

/-- `calculateSurvivalDiameter(velocity, density)`:
`50 * sqrt(density / 3000) / pow(velocity / 20, 0.5)` metres. -/
noncomputable def calculateSurvivalDiameter (velocity density : ℝ) : ℝ :=
  let strengthFactor := Real.sqrt (density / 3000)
  let velocityFactor := (velocity / 20) ^ (0.5 : ℝ)
  50 * strengthFactor / velocityFactor

/-- `getMaterialStrength(density)`: ice / rock / iron strength tiers. -/
noncomputable def getMaterialStrength (density : ℝ) : ℝ :=
  if density < 1000 then 1e6
  else if density < 5000 then 1e8
  else 1e9

/-- `calculateAirburstAltitude(diameter, velocity, density)`. -/
noncomputable def calculateAirburstAltitude (diameter velocity density : ℝ) : ℝ :=
  let dynamicPressure :=
    0.5 * PHYSICS_CONSTANTS.AIR_DENSITY_SEA_LEVEL * (velocity * 1000) ^ 2
  let strength := getMaterialStrength density
  let altitudeFactor := Real.log (dynamicPressure / strength)
  let altitude := PHYSICS_CONSTANTS.ATMOSPHERE_SCALE_HEIGHT * altitudeFactor
  max altitude 10000

/-- `calculateMassLossRatio(diameter, velocity, density)`: ablation mass-loss
fraction, capped at 0.9. -/
noncomputable def calculateMassLossRatio (diameter velocity density : ℝ) : ℝ :=
  let surfaceAreaToVolume := 6 / diameter
  let velocityFactor := (velocity / 20) ^ 2
  let strengthFactor := 3000 / density
  let massLoss := 0.1 * surfaceAreaToVolume * velocityFactor * strengthFactor
  min massLoss 0.9

/-- `calculateFinalVelocity(velocity, diameter, density)`: velocity retention
floored at 50%. -/
noncomputable def calculateFinalVelocity (velocity diameter density : ℝ) : ℝ :=
  let massLossRatio := calculateMassLossRatio diameter velocity density
  let velocityRetention := 1 - massLossRatio * 0.3
  velocity * max velocityRetention 0.5

/-- `calculateFinalMass(mass, diameter, velocity, density)`. -/
noncomputable def calculateFinalMass (mass diameter velocity density : ℝ) : ℝ :=
  let massLossRatio := calculateMassLossRatio diameter velocity density
  mass * (1 - massLossRatio)

/-- Result object of `AtmosphereCalculator.calculateAtmosphericEntry`.  Both
return paths set every one of these fields (the surviving path sets the
airburst fields to 0). -/
structure EntryResult where
  survivesAtmosphere : Bool
  airburstAltitude : ℝ
  airburstEnergy : ℝ
  finalVelocity : ℝ
  finalMass : ℝ
  finalDiameter : ℝ

/-- `calculateAtmosphericEntry(parameters)`.  The source computes
`survivesAtmosphere = diameter >= survivalDiameter` and returns the airburst
object when it is false; here the surviving branch is written first. -/
noncomputable def calculateAtmosphericEntry
    (diameter velocity angle density mass : ℝ) : EntryResult :=
  let survivalDiameter := calculateSurvivalDiameter velocity density
  if survivalDiameter ≤ diameter then
    let finalVelocity := calculateFinalVelocity velocity diameter density
    let finalMass := calculateFinalMass mass diameter velocity density
    let finalDiameter := (finalMass / density * 6 / Real.pi) ^ ((1 : ℝ) / 3)
    { survivesAtmosphere := true
      finalVelocity := finalVelocity
      finalMass := finalMass
      finalDiameter := finalDiameter
      airburstAltitude := 0
      airburstEnergy := 0 }
  else
    { survivesAtmosphere := false
      airburstAltitude := calculateAirburstAltitude diameter velocity density
      airburstEnergy := mass * (velocity * 1000) ^ 2 * 0.5
      finalVelocity := 0
      finalMass := 0
      finalDiameter := 0 }

/-! ## CraterCalculator (`src/physics/crater.js`) -/

/-- `calculateCraterDiameter(energy, velocity, mass)`: the Collins-style
scaling law `K * (E / (rho * g))^0.25 * L^-0.25`.  The `velocity` argument is
unused, as in the source. -/
noncomputable def calculateCraterDiameter (energy velocity mass : ℝ) : ℝ :=
  let K : ℝ := 1.161
  let L := (mass / PHYSICS_CONSTANTS.EARTH_CRUST_DENSITY) ^ ((1 : ℝ) / 3)
  let scalingFactor :=
    (energy / (PHYSICS_CONSTANTS.EARTH_CRUST_DENSITY * PHYSICS_CONSTANTS.EARTH_GRAVITY))
      ^ (0.25 : ℝ)
  let sizeFactor := L ^ (-0.25 : ℝ)
  K * scalingFactor * sizeFactor

/-- `calculateCraterDepth(diameter)`: simple craters (< 2000 m) are 0.2 D
deep, complex ones 0.1 D. -/
noncomputable def calculateCraterDepth (diameter : ℝ) : ℝ :=
  if diameter < 2000 then diameter * 0.2 else diameter * 0.1

/-- `calculateCraterVolume(diameter, depth)`: spherical-cap approximation. -/
noncomputable def calculateCraterVolume (diameter depth : ℝ) : ℝ :=
  let radius := diameter / 2
  let height := depth
  Real.pi * height ^ 2 * (3 * radius - height) / 3

/-- `calculateRimHeight(diameter)`. -/
noncomputable def calculateRimHeight (diameter : ℝ) : ℝ :=
  let heightRatio : ℝ := if diameter < 2000 then 0.07 else 0.03
  diameter * heightRatio

/-- `calculateEjectaRange(diameter, velocity)`. -/
noncomputable def calculateEjectaRange (diameter velocity : ℝ) : ℝ :=
  let baseRange := 2.5 * diameter
  let velocityFactor := min (velocity / 20) 2
  baseRange * velocityFactor

/-- `determineCraterShape(angle)`. -/
noncomputable def determineCraterShape (angle : ℝ) : String :=
  if 60 ≤ angle then "circular"
  else if 30 ≤ angle then "elliptical"
  else "elongated"

/-- Result object of `CraterCalculator.calculateCrater`. -/
structure CraterResult where
  diameter : ℝ
  depth : ℝ
  volume : ℝ
  rimHeight : ℝ
  ejectaRange : ℝ
  efficiency : ℝ
  shape : String

/-- `calculateCrater(parameters)`. -/
noncomputable def calculateCrater
    (diameter velocity angle density energy : ℝ) : CraterResult :=
  let angleRad := angle * Real.pi / 180
  let efficiency := Real.sin angleRad
  let effectiveEnergy := energy * efficiency
  let projectileRadius := diameter / 2
  let projectileMass := 4 / 3 * Real.pi * projectileRadius ^ 3 * density
  let craterDiameter := calculateCraterDiameter effectiveEnergy velocity projectileMass
  let craterDepth := calculateCraterDepth craterDiameter
  { diameter := craterDiameter
    depth := craterDepth
    volume := calculateCraterVolume craterDiameter craterDepth
    rimHeight := calculateRimHeight craterDiameter
    ejectaRange := calculateEjectaRange craterDiameter velocity
    efficiency := efficiency
    shape := determineCraterShape angle }

/-! ## BlastWaveCalculator (`src/physics/waves.js`) -/

/-- `calculateEffectiveEnergy(energy, angle)`: oblique impacts couple less
efficiently. -/
noncomputable def calculateEffectiveEnergy (energy angle : ℝ) : ℝ :=
  let angleRad := angle * Real.pi / 180
  let efficiency := Real.sin angleRad
  energy * efficiency

/-- `calculateOverpressureRadius(energy, targetPressure)`:
`max((E / (4 pi P))^(1/3), 0)`. -/
noncomputable def calculateOverpressureRadius (energy targetPressure : ℝ) : ℝ :=
  let radius := (energy / (4 * Real.pi * targetPressure)) ^ ((1 : ℝ) / 3)
  max radius 0

/-- One entry of the generic `(pressure, radius)` table. -/
structure OverpressureEntry where
  pressure : ℝ
  radius : ℝ

/-- `calculateMultipleRadii(energy)`. -/
noncomputable def calculateMultipleRadii (energy : ℝ) : List OverpressureEntry :=
  [1000, 5000, 10000, 20000, 50000].map fun pressure =>
    { pressure := pressure, radius := calculateOverpressureRadius energy pressure }

/-- Result object of `BlastWaveCalculator.calculateBlastWave`. -/
structure BlastResult where
  radius1psi : ℝ
  radius5psi : ℝ
  radius10psi : ℝ
  overpressureRadii : List OverpressureEntry

/-- `calculateBlastWave(parameters)`. -/
noncomputable def calculateBlastWave (energy angle : ℝ) : BlastResult :=
  let effectiveEnergy := calculateEffectiveEnergy energy angle
  { radius1psi :=
      calculateOverpressureRadius effectiveEnergy DAMAGE_THRESHOLDS.OVERPRESSURE.LIGHT_DAMAGE
    radius5psi :=
      calculateOverpressureRadius effectiveEnergy DAMAGE_THRESHOLDS.OVERPRESSURE.MODERATE_DAMAGE
    radius10psi :=
      calculateOverpressureRadius effectiveEnergy DAMAGE_THRESHOLDS.OVERPRESSURE.HEAVY_DAMAGE
    overpressureRadii := calculateMultipleRadii effectiveEnergy }

/-! ## ThermalCalculator (`src/physics/thermal.js`) -/

/-- Fireball parameters returned by `calculateFireball`. -/
structure Fireball where
  radius : ℝ
  duration : ℝ
  temperature : ℝ
  totalRadiantEnergy : ℝ

/-- `calculateFireball(energy)`: empirical scaling laws. -/
noncomputable def calculateFireball (energy : ℝ) : Fireball :=
  { radius := (energy / 4.184e9) ^ (0.4 : ℝ) * 180
    duration := (energy / 4.184e9) ^ (0.25 : ℝ) * 0.4
    temperature := 6000
    totalRadiantEnergy := energy * 0.35 }

/-- `calculateBurnRadius(fireball, threshold)`: inverse-square decay of the
fireball surface fluence, floored at the fireball radius. -/
noncomputable def calculateBurnRadius (fireball : Fireball) (threshold : ℝ) : ℝ :=
  let fireballSurfaceArea := 4 * Real.pi * fireball.radius ^ 2
  let fireballFluence := fireball.totalRadiantEnergy / fireballSurfaceArea
  let thresholdJm2 := threshold * 10000
  let burnRadius := fireball.radius * Real.sqrt (fireballFluence / thresholdJm2)
  max burnRadius fireball.radius

/-- Result object of `ThermalCalculator.calculateThermalRadiation`. -/
structure ThermalResult where
  radius1deg : ℝ
  radius2deg : ℝ
  radius3deg : ℝ
  duration : ℝ
  fireball : Fireball

/-- `calculateThermalRadiation(parameters)`.  The `diameter` argument is
destructured but unused in the source. -/
noncomputable def calculateThermalRadiation (energy diameter : ℝ) : ThermalResult :=
  let fireball := calculateFireball energy
  { radius1deg := calculateBurnRadius fireball DAMAGE_THRESHOLDS.THERMAL.FIRST_DEGREE_BURN
    radius2deg := calculateBurnRadius fireball DAMAGE_THRESHOLDS.THERMAL.SECOND_DEGREE_BURN
    radius3deg := calculateBurnRadius fireball DAMAGE_THRESHOLDS.THERMAL.THIRD_DEGREE_BURN
    duration := fireball.duration
    fireball := fireball }

/-! ## A sort helper for the JS `Array.prototype.sort` calls

The source sorts with numeric comparators (`(a, b) => b.radius - a.radius`,
`(a, b) => a.arrivalTime - b.arrivalTime`).  Both are modelled by an
insertion sort ascending in a real-valued key. -/

/-- Insert `a` into `l` before the first element of key not below its own. -/
noncomputable def insertByKey {α : Type} (key : α → ℝ) (a : α) : List α → List α
  | [] => [a]
  | b :: l => if key a ≤ key b then a :: b :: l else b :: insertByKey key a l

/-- Sort ascending in `key` (models `sort` with the comparator
`(x, y) => key x - key y`). -/
noncomputable def sortByKey {α : Type} (key : α → ℝ) (l : List α) : List α :=
  l.foldr (insertByKey key) []

/-! ## SeismicCalculator (`src/physics/seismic.js`) -/

/-- `calculateMagnitude(energy)`: Gutenberg-Richter inversion after a 1%
seismic-coupling factor, clamped to [0, 10]. -/
noncomputable def calculateMagnitude (energy : ℝ) : ℝ :=
  let seismicEnergy := energy * 0.01
  let logEnergy := Real.logb 10 seismicEnergy
  let magnitude := (logEnergy - 9.1) / 1.5
  max 0 (min magnitude 10)

/-- `getSiteAmplification(location)`: rock site, no amplification. -/
noncomputable def getSiteAmplification (location : Location) : ℝ := 0

/-- `calculateIntensityRadius(magnitude, intensity, location)`: invert the
linear attenuation relation `MMI = A + B M - C log10(R)`. -/
noncomputable def calculateIntensityRadius
    (magnitude intensity : ℝ) (location : Location) : ℝ :=
  let A : ℝ := 2.0
  let B : ℝ := 1.5
  let C : ℝ := 3.5
  let siteAmp := getSiteAmplification location
  let logR := (A + B * magnitude + siteAmp - intensity) / C
  let radiusKm := (10 : ℝ) ^ logR
  max (radiusKm * 1000) 0

/-- `intensityToPGA(intensity)`: `10^(intensity/3 - 1.5)` g. -/
noncomputable def intensityToPGA (intensity : ℝ) : ℝ :=
  let logPGA := intensity / 3.0 - 1.5
  (10 : ℝ) ^ logPGA

/-- `getIntensityColor(intensity)`. -/
def getIntensityColor (intensity : ℕ) : String :=
  if intensity = 12 then "#FF0000"
  else if intensity = 11 then "#FF2200"
  else if intensity = 10 then "#FF4400"
  else if intensity = 9 then "#FF6600"
  else if intensity = 8 then "#FF8800"
  else if intensity = 7 then "#FFAA00"
  else if intensity = 6 then "#FFCC00"
  else if intensity = 5 then "#FFDD00"
  else if intensity = 4 then "#FFFF00"
  else if intensity = 3 then "#CCFF33"
  else if intensity = 2 then "#99FF66"
  else if intensity = 1 then "#66FF99"
  else "#CCCCCC"

/-- `getIntensityDescription(intensity)`. -/
def getIntensityDescription (intensity : ℕ) : String :=
  if intensity = 12 then "Extreme Destruction"
  else if intensity = 11 then "Catastrophic"
  else if intensity = 10 then "Disastrous"
  else if intensity = 9 then "Violent"
  else if intensity = 8 then "Severe"
  else if intensity = 7 then "Very Strong"
  else if intensity = 6 then "Strong"
  else if intensity = 5 then "Moderate"
  else if intensity = 4 then "Light"
  else if intensity = 3 then "Weak"
  else if intensity = 2 then "Very Weak"
  else if intensity = 1 then "Not Felt"
  else "Unknown"

/-- The loop `for (let i = baseIntensity; i >= 3; i -= 2)`: the descending
intensity levels `[n, n-2, ...]` down to 3. -/
def intensitiesFrom : ℕ → List ℕ
  | 0 => []
  | 1 => []
  | 2 => []
  | n + 3 => (n + 3) :: intensitiesFrom (n + 1)

/-- One Modified Mercalli intensity zone as pushed by
`calculateIntensityZones`. -/
structure IntensityZone where
  intensity : ℕ
  description : String
  radius : ℝ
  damageLevel : ℝ
  peakAcceleration : ℝ
  center : Location
  color : String
  opacity : ℝ

/-- The `forEach` body of `calculateIntensityZones`: the zone pushed for the
enumerated level `p = (index, intensity)`, or nothing when its attenuation
radius does not beat the crater-scaled floor. -/
noncomputable def intensityZoneOfLevel (magnitude : ℝ) (location : Location)
    (craterDiameter : ℝ) (baseIntensity : ℕ) (p : ℕ × ℕ) : Option IntensityZone :=
  let index : ℕ := p.1
  let i : ℕ := p.2
  let radiusMultiplier := (2 : ℝ) ^ (((baseIntensity : ℝ) - (i : ℝ)) / 2)
  let baseRadius := craterDiameter * radiusMultiplier
  let radius := calculateIntensityRadius magnitude (i : ℝ) location
  let minRadius := max baseRadius 500
  if minRadius < radius then
    some { intensity := i
           description := getIntensityDescription i
           radius := radius
           damageLevel := (i : ℝ) / 12
           peakAcceleration := intensityToPGA (i : ℝ)
           center := location
           color := getIntensityColor i
           opacity := 0.7 - (index : ℝ) * 0.1 }
  else none

/-- `calculateIntensityZones(magnitude, location, craterDiameter)`.  The
source builds the descending intensity levels, pushes a zone for each level
whose attenuation radius beats the crater-scaled floor (`forEach` with the
running index feeding the opacity), and sorts descending by radius
(comparator `(a, b) => b.radius - a.radius`, i.e. ascending in the negated
radius). -/
noncomputable def calculateIntensityZones
    (magnitude : ℝ) (location : Location) (craterDiameter : ℝ) : List IntensityZone :=
  let baseIntensity : ℕ := (min 12 (max 3 ⌊magnitude * 1.5 + 2⌋)).toNat
  let intensityLevels := intensitiesFrom baseIntensity
  let zones := intensityLevels.enum.filterMap
    (intensityZoneOfLevel magnitude location craterDiameter baseIntensity)
  sortByKey (fun z => -z.radius) zones

/-- Crustal property table inside `calculateGroundMotionParameters`. -/
structure CrustalProperties where
  velocity : ℝ
  density : ℝ
  quality : ℝ

/-- Ground motion summary of `calculateGroundMotionParameters`. -/
structure GroundMotion where
  peakGroundAcceleration : ℝ
  maxIntensity : ℕ
  attenuationModel : String
  crustalProperties : CrustalProperties

/-- `calculateGroundMotionParameters(magnitude, zones)`. -/
noncomputable def calculateGroundMotionParameters
    (magnitude : ℝ) (zones : List IntensityZone) : GroundMotion :=
  { peakGroundAcceleration := ((zones.map fun z => z.peakAcceleration).maximum).unbot' 0
    maxIntensity := ((zones.map fun z => z.intensity).maximum).unbot' 0
    attenuationModel := "Boore-Atkinson"
    crustalProperties :=
      { velocity := PHYSICS_CONSTANTS.SEISMIC_VELOCITY
        density := PHYSICS_CONSTANTS.EARTH_CRUST_DENSITY
        quality := 600 } }

/-- Damage-state probabilities of `calculateFragilityCurve`. -/
structure DamageStates where
  light : ℝ
  moderate : ℝ
  extensive : ℝ
  complete : ℝ

/-- `calculateFragilityCurve(intensity, vulnerability)`. -/
noncomputable def calculateFragilityCurve (intensity vulnerability : ℝ) : DamageStates :=
  let adjustedIntensity := intensity * vulnerability
  { light := min (adjustedIntensity / 12 * 0.8) 0.8
    moderate := min (max (adjustedIntensity - 4) 0 / 8 * 0.6) 0.6
    extensive := min (max (adjustedIntensity - 6) 0 / 6 * 0.4) 0.4
    complete := min (max (adjustedIntensity - 8) 0 / 4 * 0.2) 0.2 }

/-- The `damageCategories` table of `assessBuildingDamage`:
key, display name, vulnerability. -/
def damageCategories : List (String × String × ℝ) :=
  [("residential", "Residential Buildings", 1.0),
   ("commercial", "Commercial Buildings", 0.8),
   ("industrial", "Industrial Facilities", 0.6),
   ("critical", "Critical Infrastructure", 0.4)]

/-- Per-building-type entry of a zone damage assessment. -/
structure BuildingAssessment where
  name : String
  damageStates : DamageStates
  expectedLoss : ℝ

/-- Per-zone damage assessment. -/
structure ZoneAssessment where
  intensity : ℕ
  radius : ℝ
  buildings : List (String × BuildingAssessment)

/-- Overall damage assessment; `totalDamage` is initialised to zeros and
never updated by the source. -/
structure DamageAssessment where
  zones : List ZoneAssessment
  totalDamage : DamageStates

/-- `assessBuildingDamage(zones)`. -/
noncomputable def assessBuildingDamage (zones : List IntensityZone) : DamageAssessment :=
  { zones := zones.map fun zone =>
      { intensity := zone.intensity
        radius := zone.radius
        buildings := damageCategories.map fun c =>
          let fragility := calculateFragilityCurve (zone.intensity : ℝ) c.2.2
          (c.1,
            { name := c.2.1
              damageStates := fragility
              expectedLoss :=
                fragility.complete * 0.6 + fragility.extensive * 0.3 +
                  fragility.moderate * 0.1 }) }
    totalDamage := { light := 0, moderate := 0, extensive := 0, complete := 0 } }

/-- The `waveTypes` table of `calculateArrivalTimes`:
key, display name, velocity (m/s). -/
def seismicWaveTypes : List (String × String × ℝ) :=
  [("pWave", "P-Wave (Primary)", 6000),
   ("sWave", "S-Wave (Secondary)", 3500),
   ("surface", "Surface Waves", 2800)]

/-- Arrival data of one wave type at one zone. -/
structure WaveArrival where
  name : String
  arrivalTime : ℝ
  velocity : ℝ

/-- Wave arrivals at one zone radius. -/
structure ZoneArrivals where
  distance : ℝ
  intensity : ℕ
  waveArrivals : List (String × WaveArrival)

/-- Result of `calculateArrivalTimes` (seismic). -/
structure ArrivalTimes where
  epicenter : Location
  arrivals : List ZoneArrivals

/-- `calculateArrivalTimes(epicenter, zones)` of the seismic calculator. -/
noncomputable def calculateArrivalTimes
    (epicenter : Location) (zones : List IntensityZone) : ArrivalTimes :=
  { epicenter := epicenter
    arrivals := zones.map fun zone =>
      { distance := zone.radius
        intensity := zone.intensity
        waveArrivals := seismicWaveTypes.map fun w =>
          (w.1, { name := w.2.1, arrivalTime := zone.radius / w.2.2, velocity := w.2.2 }) } }

/-- `calculateShakingDuration(magnitude)`. -/
noncomputable def calculateShakingDuration (magnitude : ℝ) : ℝ :=
  let tectonicDuration := (10 : ℝ) ^ (0.5 * magnitude - 1.5)
  max (tectonicDuration * 0.3) 5

/-- `calculateDominantFrequency(magnitude, craterDiameter)`. -/
noncomputable def calculateDominantFrequency (magnitude craterDiameter : ℝ) : ℝ :=
  let baseFreq := 1.0 / Real.sqrt (craterDiameter / 1000)
  let magnitudeEffect := (10 : ℝ) ^ ((5 - magnitude) / 3)
  max (min (baseFreq * magnitudeEffect) 50) 0.1

/-- Result object of `calculateSeismicEffects`.  The insignificant branch
sets `peakAcceleration` and omits the rich fields; the significant branch
does the opposite.  `effectRadius` is `Math.max(...zones.map(z => z.radius))`
on the significant branch, `WithBot ℝ` so that the `-Infinity` of an empty
spread is representable. -/
structure SeismicResult where
  magnitude : ℝ
  significant : Bool
  effectRadius : WithBot ℝ
  zones : List IntensityZone
  peakAcceleration : Option ℝ
  groundMotion : Option GroundMotion
  damageAssessment : Option DamageAssessment
  arrivalTimes : Option ArrivalTimes
  duration : Option ℝ
  frequency : Option ℝ

/-- `calculateSeismicEffects(parameters)`.  (The invalid-location guard is
unreachable in the typed embedding; see the header.) -/
noncomputable def calculateSeismicEffects
    (energy : ℝ) (location : Location) (craterDiameter : ℝ) : SeismicResult :=
  let magnitude := calculateMagnitude energy
  if magnitude < 3.0 then
    { magnitude := magnitude
      significant := false
      effectRadius := 0
      zones := []
      peakAcceleration := some 0
      groundMotion := none
      damageAssessment := none
      arrivalTimes := none
      duration := none
      frequency := none }
  else
    let intensityZones := calculateIntensityZones magnitude location craterDiameter
    { magnitude := magnitude
      significant := true
      effectRadius := (intensityZones.map fun z => z.radius).maximum
      zones := intensityZones
      peakAcceleration := none
      groundMotion := some (calculateGroundMotionParameters magnitude intensityZones)
      damageAssessment := some (assessBuildingDamage intensityZones)
      arrivalTimes := some (calculateArrivalTimes location intensityZones)
      duration := some (calculateShakingDuration magnitude)
      frequency := some (calculateDominantFrequency magnitude craterDiameter) }

/-! ## TsunamiCalculator (`src/physics/tsunami.js`) -/

/-- Real-valued model of the JS builtin `Math.atan2(y, x)` (used only by the
haversine distance; no claim depends on its value). -/
noncomputable def atan2 (y x : ℝ) : ℝ :=
  if 0 < x then Real.arctan (y / x)
  else if x < 0 then
    (if 0 ≤ y then Real.arctan (y / x) + Real.pi else Real.arctan (y / x) - Real.pi)
  else
    (if 0 < y then Real.pi / 2 else if y < 0 then -(Real.pi / 2) else 0)

/-- `calculateDistance(point1, point2)`: haversine great-circle distance. -/
noncomputable def calculateDistance (point1 point2 : Location) : ℝ :=
  let R := PHYSICS_CONSTANTS.EARTH_RADIUS
  let phi1 := point1.latitude * Real.pi / 180
  let phi2 := point2.latitude * Real.pi / 180
  let dPhi := (point2.latitude - point1.latitude) * Real.pi / 180
  let dLambda := (point2.longitude - point1.longitude) * Real.pi / 180
  let a :=
    Real.sin (dPhi / 2) * Real.sin (dPhi / 2) +
      Real.cos phi1 * Real.cos phi2 * Real.sin (dLambda / 2) * Real.sin (dLambda / 2)
  let c := 2 * atan2 (Real.sqrt a) (Real.sqrt (1 - a))
  R * c

/-- `isOceanCoordinate(lat, lng)`: coarse Atlantic / Pacific / Indian
classifier. -/
noncomputable def isOceanCoordinate (lat lng : ℝ) : Bool :=
  if -80 ≤ lng ∧ lng ≤ 20 ∧ |lat| < 70 then true
  else if (-180 ≤ lng ∧ lng ≤ -80) ∨ (120 ≤ lng ∧ lng ≤ 180) then true
  else if 20 ≤ lng ∧ lng ≤ 120 ∧ -60 ≤ lat ∧ lat ≤ 30 then true
  else false

/-- `estimateWaterDepth(lat, lng)`: latitude-banded depth heuristic. -/
noncomputable def estimateWaterDepth (lat lng : ℝ) : ℝ :=
  if 60 < |lat| then 2000
  else if |lat| < 30 then 4000
  else 3000

/-- `identifyOceanBasin(lat, lng)`. -/
noncomputable def identifyOceanBasin (lat lng : ℝ) : String :=
  if -80 ≤ lng ∧ lng ≤ 20 then "Atlantic"
  else if (-180 ≤ lng ∧ lng ≤ -80) ∨ (120 ≤ lng ∧ lng ≤ 180) then "Pacific"
  else if 20 ≤ lng ∧ lng ≤ 120 then "Indian"
  else "Unknown"

/-- `findNearestCoastline(lat, lng)`: argmin scan of a small distance table,
seeded with distance Infinity (`⊤` here). -/
noncomputable def findNearestCoastline (lat lng : ℝ) : String :=
  let distances : List (String × ℝ) :=
    [("North America West", |lng + 120|),
     ("North America East", |lng + 75|),
     ("Europe", |lng - 0|),
     ("Asia", |lng - 140|),
     ("Australia", |lng - 140| + |lat + 25|)]
  let nearest := distances.foldl
    (fun acc p => if (p.2 : WithTop ℝ) < acc.2 then (p.1, (p.2 : WithTop ℝ)) else acc)
    ("", (⊤ : WithTop ℝ))
  nearest.1

/-- Ocean-impact assessment of `determineOceanImpact`; the land branch leaves
basin / coast / coordinates unset. -/
structure OceanImpact where
  inOcean : Bool
  waterDepth : ℝ
  oceanBasin : Option String
  nearestCoast : Option String
  coordinates : Option Location

/-- `determineOceanImpact(location)` (the `await`ed lookup is pure here). -/
noncomputable def determineOceanImpact (location : Location) : OceanImpact :=
  if isOceanCoordinate location.latitude location.longitude then
    { inOcean := true
      waterDepth := estimateWaterDepth location.latitude location.longitude
      oceanBasin := some (identifyOceanBasin location.latitude location.longitude)
      nearestCoast := some (findNearestCoastline location.latitude location.longitude)
      coordinates := some location }
  else
    { inOcean := false
      waterDepth := 0
      oceanBasin := none
      nearestCoast := none
      coordinates := none }

/-- `calculateEnergyTransferEfficiency(waterDepth, craterDiameter)`. -/
noncomputable def calculateEnergyTransferEfficiency (waterDepth craterDiameter : ℝ) : ℝ :=
  let depthFactor := min (waterDepth / 1000) 1
  let sizeFactor := min (craterDiameter / 1000) 1
  0.001 * (1 + depthFactor) * (1 + sizeFactor)

/-- `calculateWaterDisplacement(craterDiameter, waterDepth)`. -/
noncomputable def calculateWaterDisplacement (craterDiameter waterDepth : ℝ) : ℝ :=
  let radius := craterDiameter / 2
  let displacementDepth := min (radius * 0.2) waterDepth
  2 / 3 * Real.pi * radius ^ 2 * displacementDepth

/-- `calculateInitialWaveHeight(energy, displacementVolume, waterDepth)`. -/
noncomputable def calculateInitialWaveHeight
    (energy displacementVolume waterDepth : ℝ) : ℝ :=
  let waveArea := Real.pi * Real.sqrt (displacementVolume / Real.pi) ^ 2
  let heightSquared :=
    2 * energy / (PHYSICS_CONSTANTS.WATER_DENSITY * PHYSICS_CONSTANTS.EARTH_GRAVITY * waveArea)
  Real.sqrt (max heightSquared 0)

/-- `calculateWavePeriod(wavelength, waterDepth)`. -/
noncomputable def calculateWavePeriod (wavelength waterDepth : ℝ) : ℝ :=
  if waterDepth < wavelength / 20 then
    wavelength / Real.sqrt (PHYSICS_CONSTANTS.EARTH_GRAVITY * waterDepth)
  else
    Real.sqrt (wavelength / (2 * Real.pi * PHYSICS_CONSTANTS.EARTH_GRAVITY))

/-- `calculateWaveSpeed(wavelength, waterDepth)`. -/
noncomputable def calculateWaveSpeed (wavelength waterDepth : ℝ) : ℝ :=
  if waterDepth < wavelength / 20 then
    Real.sqrt (PHYSICS_CONSTANTS.EARTH_GRAVITY * waterDepth)
  else
    Real.sqrt (PHYSICS_CONSTANTS.EARTH_GRAVITY * wavelength / (2 * Real.pi))

/-- Initial wave parameters of `calculateInitialWave`. -/
structure InitialWave where
  height : ℝ
  wavelength : ℝ
  period : ℝ
  speed : ℝ
  energy : ℝ
  displacementVolume : ℝ
  transferEfficiency : ℝ
  waveType : String

/-- `calculateInitialWave(energy, waterDepth, craterDiameter)`. -/
noncomputable def calculateInitialWave
    (energy waterDepth craterDiameter : ℝ) : InitialWave :=
  let transferEfficiency := calculateEnergyTransferEfficiency waterDepth craterDiameter
  let tsunamiEnergy := energy * transferEfficiency
  let displacementVolume := calculateWaterDisplacement craterDiameter waterDepth
  let initialHeight := calculateInitialWaveHeight tsunamiEnergy displacementVolume waterDepth
  let wavelength := max (craterDiameter * 50) (waterDepth * 20)
  { height := initialHeight
    wavelength := wavelength
    period := calculateWavePeriod wavelength waterDepth
    speed := calculateWaveSpeed wavelength waterDepth
    energy := tsunamiEnergy
    displacementVolume := displacementVolume
    transferEfficiency := transferEfficiency
    waveType := if wavelength / 20 < waterDepth then "deep-water" else "shallow-water" }

/-- `calculateWaveHeightDecay(initialHeight, distance, wavelength)`:
geometric spreading times exponential dissipation. -/
noncomputable def calculateWaveHeightDecay
    (initialHeight distance wavelength : ℝ) : ℝ :=
  let geometricDecay := 1 / Real.sqrt (max (distance / 1000) 1)
  let dissipationFactor := Real.exp (-distance / (wavelength * 1000))
  initialHeight * geometricDecay * dissipationFactor

/-- One wave-front circle pushed by `modelWavePropagation`. -/
structure WaveFront where
  time : ℝ
  radius : ℝ
  height : ℝ
  speed : ℝ
  energy : ℝ

/-- `calculateWaveSpeedAtDistance(initialWave, distance)`: constant in the
source. -/
noncomputable def calculateWaveSpeedAtDistance
    (initialWave : InitialWave) (distance : ℝ) : ℝ :=
  initialWave.speed

/-- `calculateEnergyAtDistance(initialEnergy, distance)`. -/
noncomputable def calculateEnergyAtDistance (initialEnergy distance : ℝ) : ℝ :=
  initialEnergy / max (distance / 1000) 1

/-- The propagation loop of `modelWavePropagation`: up to `fuel` further
one-hour steps starting at step index `step`; both `break` conditions end
the list. -/
noncomputable def buildWaveFronts (initialWave : InitialWave) : ℕ → ℕ → List WaveFront
  | 0, _ => []
  | fuel + 1, step =>
    let currentTime : ℝ := (step : ℝ) * 3600
    let waveRadius := initialWave.speed * currentTime
    if 20000 * 1000 < waveRadius then []
    else
      let heightAtDistance :=
        calculateWaveHeightDecay initialWave.height waveRadius initialWave.wavelength
      if heightAtDistance < 0.01 then []
      else
        { time := currentTime
          radius := waveRadius
          height := heightAtDistance
          speed := calculateWaveSpeedAtDistance initialWave waveRadius
          energy := calculateEnergyAtDistance initialWave.energy waveRadius } ::
          buildWaveFronts initialWave fuel (step + 1)

/-- Wave propagation data (`travelTimes` and `energyDecay` stay empty in the
source and are omitted). -/
structure PropagationData where
  epicenter : Location
  initialWave : InitialWave
  waveFronts : List WaveFront

/-- `modelWavePropagation(initialWave, epicenter)`: 24 one-hour steps with a
20,000 km cap and a 0.01 m height floor. -/
noncomputable def modelWavePropagation
    (initialWave : InitialWave) (epicenter : Location) : PropagationData :=
  { epicenter := epicenter
    initialWave := initialWave
    waveFronts := buildWaveFronts initialWave 24 0 }

/-- The `{lat, lng}` coordinate objects of the coastline table. -/
structure CoordLL where
  lat : ℝ
  lng : ℝ

/-- One entry of `getMajorCoastlines`. -/
structure Coastline where
  name : String
  coordinates : CoordLL
  population : ℝ
  topography : String

/-- `getMajorCoastlines(epicenter)`: fixed five-entry table. -/
noncomputable def getMajorCoastlines (epicenter : Location) : List Coastline :=
  [{ name := "California Coast", coordinates := { lat := 36, lng := -122 },
     population := 25000000, topography := "steep" },
   { name := "Japan Coast", coordinates := { lat := 36, lng := 140 },
     population := 50000000, topography := "moderate" },
   { name := "Chile Coast", coordinates := { lat := -30, lng := -71 },
     population := 5000000, topography := "steep" },
   { name := "Indonesia Coast", coordinates := { lat := -6, lng := 106 },
     population := 30000000, topography := "flat" },
   { name := "Hawaii Islands", coordinates := { lat := 21, lng := -158 },
     population := 1500000, topography := "steep" }]

/-- `findWaveAtDistance(waveFronts, targetDistance)`: first front within 10%
of the target distance. -/
noncomputable def findWaveAtDistance
    (waveFronts : List WaveFront) (targetDistance : ℝ) : Option WaveFront :=
  waveFronts.find? fun front => |front.radius - targetDistance| < front.radius * 0.1

/-- Run-up data of `calculateWaveRunUp`. -/
structure RunUp where
  maxHeight : ℝ
  velocity : ℝ

/-- `calculateWaveRunUp(wave, coastline)`: topography-keyed amplification
with default 2.0. -/
noncomputable def calculateWaveRunUp (wave : WaveFront) (coastline : Coastline) : RunUp :=
  let amplification : ℝ :=
    if coastline.topography = "steep" then 1.5
    else if coastline.topography = "moderate" then 2.0
    else if coastline.topography = "flat" then 3.0
    else 2.0
  { maxHeight := wave.height * amplification
    velocity := Real.sqrt (2 * PHYSICS_CONSTANTS.EARTH_GRAVITY * wave.height * amplification) }

/-- Result object of `calculateInundationDistance`. -/
structure InundationResult where
  maxDistance : ℝ

/-- `calculateInundationDistance(runUp, topography)`. -/
noncomputable def calculateInundationDistance
    (runUp : RunUp) (topography : String) : InundationResult :=
  let slopeFactor : ℝ :=
    if topography = "steep" then 20
    else if topography = "moderate" then 100
    else if topography = "flat" then 1000
    else 100
  { maxDistance := runUp.maxHeight * slopeFactor }

/-- `assessHazardLevel(waveHeight, runUpHeight)`. -/
noncomputable def assessHazardLevel (waveHeight runUpHeight : ℝ) : String :=
  if 10 < runUpHeight then "extreme"
  else if 5 < runUpHeight then "high"
  else if 2 < runUpHeight then "moderate"
  else if 0.5 < runUpHeight then "low"
  else "minimal"

/-- One coastal-impact record pushed by `calculateCoastalEffects`.  (The
source reads `coastline.coordinates.latitude/longitude`, fields the `{lat,
lng}` table entries do not carry - `undefined` in JS; the embedding uses the
intended `lat`/`lng` values, which no claim depends on.) -/
structure CoastalEffect where
  location : String
  coordinates : Location
  distance : ℝ
  arrivalTime : ℝ
  waveHeight : ℝ
  runUpHeight : ℝ
  inundationDistance : ℝ
  velocity : ℝ
  hazardLevel : String
  populationAtRisk : ℝ

/-- `calculateCoastalEffects(propagationData, epicenter)`: one record per
coastline whose matched wave front is at least 0.1 m high, sorted ascending
by arrival time (comparator `(a, b) => a.arrivalTime - b.arrivalTime`). -/
noncomputable def calculateCoastalEffects
    (propagationData : PropagationData) (epicenter : Location) : List CoastalEffect :=
  let coastalEffects := (getMajorCoastlines epicenter).filterMap fun coastline =>
    let coastLoc : Location :=
      { latitude := coastline.coordinates.lat, longitude := coastline.coordinates.lng }
    let distance := calculateDistance epicenter coastLoc
    match findWaveAtDistance propagationData.waveFronts distance with
    | none => none
    | some arrivalWave =>
      if arrivalWave.height < 0.1 then none
      else
        let runUp := calculateWaveRunUp arrivalWave coastline
        let inundation := calculateInundationDistance runUp coastline.topography
        some { location := coastline.name
               coordinates := coastLoc
               distance := distance
               arrivalTime := arrivalWave.time
               waveHeight := arrivalWave.height
               runUpHeight := runUp.maxHeight
               inundationDistance := inundation.maxDistance
               velocity := runUp.velocity
               hazardLevel := assessHazardLevel arrivalWave.height runUp.maxHeight
               populationAtRisk := coastline.population }
  sortByKey (fun e => e.arrivalTime) coastalEffects

/-- `getWaveHeightColor(height)`. -/
noncomputable def getWaveHeightColor (height : ℝ) : String :=
  if 5 < height then "#8b0000"
  else if 2 < height then "#dc143c"
  else if 1 < height then "#ff4500"
  else if 0.5 < height then "#ffa500"
  else "#ffff00"

/-- `createWaveHeightColorScale()`. -/
def createWaveHeightColorScale : List (ℝ × String) :=
  [(0.5, "#ffff00"), (1.0, "#ffa500"), (2.0, "#ff4500"),
   (5.0, "#dc143c"), (10.0, "#8b0000")]

/-- One animation circle of the tsunami visualization. -/
structure VizCircle where
  center : Location
  radius : ℝ
  height : ℝ
  opacity : ℝ
  color : String

/-- One animation frame of the tsunami visualization. -/
structure VizFrame where
  time : ℝ
  circles : List VizCircle

/-- One coastal marker of the tsunami visualization (its formatted string
label, a decimal rendering of a real, is omitted). -/
structure VizMarker where
  location : Location
  arrivalTime : ℝ
  height : ℝ
  hazard : String

/-- Result of `generateTsunamiVisualization`. -/
structure VisualizationData where
  epicenter : Location
  animationFrames : List VizFrame
  coastalMarkers : List VizMarker
  colorScale : List (ℝ × String)
  duration : WithBot ℝ

/-- `generateTsunamiVisualization(propagationData, coastalEffects)`. -/
noncomputable def generateTsunamiVisualization
    (propagationData : PropagationData) (coastalEffects : List CoastalEffect) :
    VisualizationData :=
  { epicenter := propagationData.epicenter
    animationFrames := propagationData.waveFronts.map fun front =>
      { time := front.time
        circles :=
          [{ center := propagationData.epicenter
             radius := front.radius
             height := front.height
             opacity := max 0.1 (front.height / propagationData.initialWave.height)
             color := getWaveHeightColor front.height }] }
    coastalMarkers := coastalEffects.map fun effect =>
      { location := effect.coordinates
        arrivalTime := effect.arrivalTime
        height := effect.waveHeight
        hazard := effect.hazardLevel }
    colorScale := createWaveHeightColorScale
    duration := (propagationData.waveFronts.map fun f => f.time).maximum }

/-- One record of the tsunami arrival-time list (`formattedTime`, a decimal
rendering of a real, is omitted). -/
structure TsunamiArrival where
  location : String
  arrivalTime : ℝ
  distance : ℝ

/-- `TsunamiCalculator.calculateArrivalTimes(epicenter, coastalEffects)`. -/
noncomputable def TsunamiCalculator.calculateArrivalTimes
    (epicenter : Location) (coastalEffects : List CoastalEffect) : List TsunamiArrival :=
  coastalEffects.map fun effect =>
    { location := effect.location
      arrivalTime := effect.arrivalTime
      distance := effect.distance }

/-- `estimateEventDuration(initialWave)`. -/
noncomputable def estimateEventDuration (initialWave : InitialWave) : ℝ :=
  max (initialWave.period * 10) (6 * 3600)

/-- Result of `calculateEnergyDistribution`. -/
structure EnergyDistribution where
  initialEnergy : ℝ
  energyDecayRate : ℝ
  finalEnergy : ℝ

/-- `calculateEnergyDistribution(initialWave, propagationData)`. -/
noncomputable def calculateEnergyDistribution
    (initialWave : InitialWave) (propagationData : PropagationData) : EnergyDistribution :=
  let totalEnergy := initialWave.energy
  { initialEnergy := totalEnergy
    energyDecayRate :=
      totalEnergy /
        (if propagationData.waveFronts.length = 0 then 1
         else (propagationData.waveFronts.length : ℝ))
    finalEnergy :=
      match propagationData.waveFronts.getLast? with
      | some front => front.energy
      | none => 0 }

/-- Result object of `calculateTsunami`.  `maxHeight` on the generated path
is `Math.max(...coastalEffects.map(c => c.maxHeight))`; the coastal records
carry no `maxHeight` key (the run-up height is the evident referent), so the
embedding maximises the run-up height; no claim depends on this field. -/
structure TsunamiResult where
  generated : Bool
  reason : Option String
  oceanImpact : Option OceanImpact
  maxHeight : WithBot ℝ
  waveData : Option InitialWave
  initialWave : Option InitialWave
  propagation : Option PropagationData
  coastalEffects : List CoastalEffect
  visualization : Option VisualizationData
  arrivalTimes : Option (List TsunamiArrival)
  duration : Option ℝ
  energyDistribution : Option EnergyDistribution

/-- `calculateTsunami(parameters)` (the awaited lookups are pure here; the
invalid-location guard is unreachable in the typed embedding). -/
noncomputable def calculateTsunami
    (energy : ℝ) (location : Location) (craterDiameter : ℝ) : TsunamiResult :=
  let oceanImpact := determineOceanImpact location
  if oceanImpact.inOcean = false then
    { generated := false
      reason := some "Land impact - no tsunami generation"
      oceanImpact := some oceanImpact
      maxHeight := 0
      waveData := none
      initialWave := none
      propagation := none
      coastalEffects := []
      visualization := none
      arrivalTimes := none
      duration := none
      energyDistribution := none }
  else
    let initialWave := calculateInitialWave energy oceanImpact.waterDepth craterDiameter
    if initialWave.height < 0.1 then
      { generated := false
        reason := some "Wave height too small for significant tsunami"
        oceanImpact := some oceanImpact
        maxHeight := (initialWave.height : WithBot ℝ)
        waveData := some initialWave
        initialWave := none
        propagation := none
        coastalEffects := []
        visualization := none
        arrivalTimes := none
        duration := none
        energyDistribution := none }
    else
      let propagationData := modelWavePropagation initialWave location
      let coastalEffects := calculateCoastalEffects propagationData location
      let visualizationData := generateTsunamiVisualization propagationData coastalEffects
      { generated := true
        reason := none
        oceanImpact := some oceanImpact
        maxHeight := (coastalEffects.map fun c => c.runUpHeight).maximum
        waveData := none
        initialWave := some initialWave
        propagation := some propagationData
        coastalEffects := coastalEffects
        visualization := some visualizationData
        arrivalTimes := some (TsunamiCalculator.calculateArrivalTimes location coastalEffects)
        duration := some (estimateEventDuration initialWave)
        energyDistribution := some (calculateEnergyDistribution initialWave propagationData) }

/-! ## ImpactCalculator (`src/map/seismic-layers.js`) -/

/-- The composition parameter.  The JS `parameters.density` value, read only
for a custom composition, is folded into the `custom` constructor. -/
inductive AsteroidComposition where
  | rock : AsteroidComposition
  | iron : AsteroidComposition
  | ice : AsteroidComposition
  | custom : ℝ → AsteroidComposition

/-- `getAsteroidDensity(composition, customDensity)`; the JS
`customDensity || 2700` default also fires on a zero custom density. -/
noncomputable def getAsteroidDensity (composition : AsteroidComposition) : ℝ :=
  match composition with
  | AsteroidComposition.rock => 2700
  | AsteroidComposition.iron => 7800
  | AsteroidComposition.ice => 917
  | AsteroidComposition.custom customDensity => if customDensity = 0 then 2700 else customDensity

/-- `ImpactCalculator.calculateMass(diameter, density)`: spherical mass. -/
noncomputable def calculateMass (diameter density : ℝ) : ℝ :=
  let radius := diameter / 2
  let volume := 4 / 3 * Real.pi * radius ^ 3
  volume * density

/-- `ImpactCalculator.calculateKineticEnergy(mass, velocity)`; velocity in
km/s. -/
noncomputable def calculateKineticEnergy (mass velocity : ℝ) : ℝ :=
  let velocityMs := velocity * 1000
  0.5 * mass * velocityMs ^ 2

/-- `ImpactCalculator.calculateMomentum(mass, velocity)`. -/
noncomputable def calculateMomentum (mass velocity : ℝ) : ℝ :=
  let velocityMs := velocity * 1000
  mass * velocityMs

/-- `isPhase2Enabled()`: the source returns the constant `true`. -/
def isPhase2Enabled : Bool := true

/-- The input object of `calculateImpact`. -/
structure ImpactParameters where
  diameter : ℝ
  velocity : ℝ
  angle : ℝ
  composition : AsteroidComposition
  latitude : ℝ
  longitude : ℝ

/-- The airburst fields added only on the non-surviving early return. -/
structure AirburstFields where
  airburstAltitude : ℝ
  airburstEnergy : ℝ

/-- The Phase-1 block `Object.assign`ed onto a surviving result. -/
structure Phase1Fields where
  craterDiameter : ℝ
  craterDepth : ℝ
  craterVolume : ℝ
  rimHeight : ℝ
  ejectaRange : ℝ
  blastRadius1psi : ℝ
  blastRadius5psi : ℝ
  blastRadius10psi : ℝ
  overpressureRadii : List OverpressureEntry
  thermalRadius1deg : ℝ
  thermalRadius2deg : ℝ
  thermalRadius3deg : ℝ
  thermalDuration : ℝ
  fireball : Fireball

/-- The Phase-2 block merged onto a surviving result when
`isPhase2Enabled()` holds. -/
structure Phase2Fields where
  seismicMagnitude : ℝ
  seismicSignificant : Bool
  seismicRadius : WithBot ℝ
  seismicZones : List IntensityZone
  groundMotion : Option GroundMotion
  buildingDamage : Option DamageAssessment
  seismicDuration : Option ℝ
  tsunamiGenerated : Bool
  tsunamiMaxHeight : WithBot ℝ
  tsunamiOceanImpact : Option OceanImpact
  tsunamiPropagation : Option PropagationData
  tsunamiCoastalEffects : List CoastalEffect
  tsunamiVisualization : Option VisualizationData
  tsunamiArrivalTimes : Option (List TsunamiArrival)

/-- The aggregate result of `calculateImpact`.  The base fields are set on
every path; `airburst` only on the non-surviving early return; `phase1` and
`phase2` only on the surviving path. -/
structure ImpactResult where
  diameter : ℝ
  velocity : ℝ
  angle : ℝ
  density : ℝ
  mass : ℝ
  kineticEnergy : ℝ
  momentum : ℝ
  impactLocation : Location
  survivesAtmosphere : Bool
  finalVelocity : ℝ
  finalMass : ℝ
  finalDiameter : ℝ
  airburst : Option AirburstFields
  phase1 : Option Phase1Fields
  phase2 : Option Phase2Fields

/-- `ImpactCalculator.calculateImpact(parameters)` (the awaited tsunami stage
is pure here). -/
noncomputable def calculateImpact (parameters : ImpactParameters) : ImpactResult :=
  let asteroidDensity := getAsteroidDensity parameters.composition
  let mass := calculateMass parameters.diameter asteroidDensity
  let kineticEnergy := calculateKineticEnergy mass parameters.velocity
  let momentum := calculateMomentum mass parameters.velocity
  let atmosphereResults :=
    calculateAtmosphericEntry parameters.diameter parameters.velocity parameters.angle
      asteroidDensity mass
  let location : Location :=
    { latitude := parameters.latitude, longitude := parameters.longitude }
  let results : ImpactResult :=
    { diameter := parameters.diameter
      velocity := parameters.velocity
      angle := parameters.angle
      density := asteroidDensity
      mass := mass
      kineticEnergy := kineticEnergy
      momentum := momentum
      impactLocation := location
      survivesAtmosphere := atmosphereResults.survivesAtmosphere
      finalVelocity := atmosphereResults.finalVelocity
      finalMass := atmosphereResults.finalMass
      finalDiameter := atmosphereResults.finalDiameter
      airburst := none
      phase1 := none
      phase2 := none }
  if atmosphereResults.survivesAtmosphere = false then
    { results with
      airburst := some
        { airburstAltitude := atmosphereResults.airburstAltitude
          airburstEnergy := atmosphereResults.airburstEnergy } }
  else
    let finalEnergy :=
      calculateKineticEnergy atmosphereResults.finalMass atmosphereResults.finalVelocity
    let craterResults :=
      calculateCrater atmosphereResults.finalDiameter atmosphereResults.finalVelocity
        parameters.angle asteroidDensity finalEnergy
    let blastResults := calculateBlastWave finalEnergy parameters.angle
    let thermalResults := calculateThermalRadiation finalEnergy atmosphereResults.finalDiameter
    let withPhase1 :=
      { results with
        phase1 := some
          { craterDiameter := craterResults.diameter
            craterDepth := craterResults.depth
            craterVolume := craterResults.volume
            rimHeight := craterResults.rimHeight
            ejectaRange := craterResults.ejectaRange
            blastRadius1psi := blastResults.radius1psi
            blastRadius5psi := blastResults.radius5psi
            blastRadius10psi := blastResults.radius10psi
            overpressureRadii := blastResults.overpressureRadii
            thermalRadius1deg := thermalResults.radius1deg
            thermalRadius2deg := thermalResults.radius2deg
            thermalRadius3deg := thermalResults.radius3deg
            thermalDuration := thermalResults.duration
            fireball := thermalResults.fireball } }
    if isPhase2Enabled then
      let seismicResults := calculateSeismicEffects finalEnergy location craterResults.diameter
      let tsunamiResults := calculateTsunami finalEnergy location craterResults.diameter
      { withPhase1 with
        phase2 := some
          { seismicMagnitude := seismicResults.magnitude
            seismicSignificant := seismicResults.significant
            seismicRadius := seismicResults.effectRadius
            seismicZones := seismicResults.zones
            groundMotion := seismicResults.groundMotion
            buildingDamage := seismicResults.damageAssessment
            seismicDuration := seismicResults.duration
            tsunamiGenerated := tsunamiResults.generated
            tsunamiMaxHeight := tsunamiResults.maxHeight
            tsunamiOceanImpact := tsunamiResults.oceanImpact
            tsunamiPropagation := tsunamiResults.propagation
            tsunamiCoastalEffects := tsunamiResults.coastalEffects
            tsunamiVisualization := tsunamiResults.visualization
            tsunamiArrivalTimes := tsunamiResults.arrivalTimes } }
    else withPhase1

/-! ### Verification abbreviations for the surviving pipeline path

These name the intermediate values `calculateImpact` computes on its
surviving branch, so that theorems can speak about the fields of the
returned result without repeating the full expressions. -/

noncomputable def impactDensity (p : ImpactParameters) : ℝ :=
  getAsteroidDensity p.composition

noncomputable def impactMass (p : ImpactParameters) : ℝ :=
  calculateMass p.diameter (impactDensity p)

noncomputable def impactFinalVelocity (p : ImpactParameters) : ℝ :=
  calculateFinalVelocity p.velocity p.diameter (impactDensity p)

noncomputable def impactFinalMass (p : ImpactParameters) : ℝ :=
  calculateFinalMass (impactMass p) p.diameter p.velocity (impactDensity p)

noncomputable def impactFinalDiameter (p : ImpactParameters) : ℝ :=
  (impactFinalMass p / impactDensity p * 6 / Real.pi) ^ ((1 : ℝ) / 3)

noncomputable def impactFinalEnergy (p : ImpactParameters) : ℝ :=
  calculateKineticEnergy (impactFinalMass p) (impactFinalVelocity p)

noncomputable def impactCrater (p : ImpactParameters) : CraterResult :=
  calculateCrater (impactFinalDiameter p) (impactFinalVelocity p) p.angle
    (impactDensity p) (impactFinalEnergy p)

noncomputable def impactBlast (p : ImpactParameters) : BlastResult :=
  calculateBlastWave (impactFinalEnergy p) p.angle

noncomputable def impactThermal (p : ImpactParameters) : ThermalResult :=
  calculateThermalRadiation (impactFinalEnergy p) (impactFinalDiameter p)

noncomputable def impactLocationOf (p : ImpactParameters) : Location :=
  { latitude := p.latitude, longitude := p.longitude }

noncomputable def impactSeismic (p : ImpactParameters) : SeismicResult :=
  calculateSeismicEffects (impactFinalEnergy p) (impactLocationOf p) (impactCrater p).diameter

noncomputable def impactTsunami (p : ImpactParameters) : TsunamiResult :=
  calculateTsunami (impactFinalEnergy p) (impactLocationOf p) (impactCrater p).diameter

noncomputable def impactPhase1 (p : ImpactParameters) : Phase1Fields :=
  { craterDiameter := (impactCrater p).diameter
    craterDepth := (impactCrater p).depth
    craterVolume := (impactCrater p).volume
    rimHeight := (impactCrater p).rimHeight
    ejectaRange := (impactCrater p).ejectaRange
    blastRadius1psi := (impactBlast p).radius1psi
    blastRadius5psi := (impactBlast p).radius5psi
    blastRadius10psi := (impactBlast p).radius10psi
    overpressureRadii := (impactBlast p).overpressureRadii
    thermalRadius1deg := (impactThermal p).radius1deg
    thermalRadius2deg := (impactThermal p).radius2deg
    thermalRadius3deg := (impactThermal p).radius3deg
    thermalDuration := (impactThermal p).duration
    fireball := (impactThermal p).fireball }

noncomputable def impactPhase2 (p : ImpactParameters) : Phase2Fields :=
  { seismicMagnitude := (impactSeismic p).magnitude
    seismicSignificant := (impactSeismic p).significant
    seismicRadius := (impactSeismic p).effectRadius
    seismicZones := (impactSeismic p).zones
    groundMotion := (impactSeismic p).groundMotion
    buildingDamage := (impactSeismic p).damageAssessment
    seismicDuration := (impactSeismic p).duration
    tsunamiGenerated := (impactTsunami p).generated
    tsunamiMaxHeight := (impactTsunami p).maxHeight
    tsunamiOceanImpact := (impactTsunami p).oceanImpact
    tsunamiPropagation := (impactTsunami p).propagation
    tsunamiCoastalEffects := (impactTsunami p).coastalEffects
    tsunamiVisualization := (impactTsunami p).visualization
    tsunamiArrivalTimes := (impactTsunami p).arrivalTimes }

/-! ## Helper lemmas about the sort model -/

theorem perm_insertByKey {α : Type} (key : α → ℝ) (a : α) (l : List α) :
    List.Perm (insertByKey key a l) (a :: l) := by
  induction l with
  | nil => rfl
  | cons b t ih =>
    by_cases h : key a ≤ key b
    · simp [insertByKey, h]
    · simp only [insertByKey, h, if_false]
      exact (ih.cons b).trans (List.Perm.swap a b t)

theorem perm_sortByKey {α : Type} (key : α → ℝ) (l : List α) :
    List.Perm (sortByKey key l) l := by
  induction l with
  | nil => rfl
  | cons a t ih => exact (perm_insertByKey key a (sortByKey key t)).trans (ih.cons a)

theorem pairwise_insertByKey {α : Type} (key : α → ℝ) (a : α) (l : List α)
    (h : l.Pairwise fun x y => key x ≤ key y) :
    (insertByKey key a l).Pairwise fun x y => key x ≤ key y := by
  induction l with
  | nil => simp [insertByKey]
  | cons b t ih =>
    rcases List.pairwise_cons.mp h with ⟨hb, ht⟩
    by_cases hab : key a ≤ key b
    · simp only [insertByKey, hab, if_true]
      refine List.pairwise_cons.mpr ⟨?_, h⟩
      intro x hx
      rcases List.mem_cons.mp hx with rfl | hx
      · exact hab
      · exact hab.trans (hb x hx)
    · simp only [insertByKey, hab, if_false]
      refine List.pairwise_cons.mpr ⟨?_, ih ht⟩
      intro x hx
      rcases List.mem_cons.mp ((perm_insertByKey key a t).mem_iff.mp hx) with rfl | hx
      · exact le_of_not_le hab
      · exact hb x hx

theorem pairwise_sortByKey {α : Type} (key : α → ℝ) (l : List α) :
    (sortByKey key l).Pairwise fun x y => key x ≤ key y := by
  induction l with
  | nil => simp [sortByKey]
  | cons a t ih => exact pairwise_insertByKey key a (sortByKey key t) ih

/-- A symmetric pairwise relation survives the sort (it is preserved by any
permutation). -/
theorem pairwise_sortByKey_of_symm {α : Type} (key : α → ℝ)
    {R : α → α → Prop} (hR : Symmetric R) {l : List α}
    (h : l.Pairwise R) : (sortByKey key l).Pairwise R :=
  ((perm_sortByKey key l).pairwise_iff (fun h1 => hR h1)).mpr h

/-! ## General helper lemmas -/

theorem ten_rpow_pos (x : ℝ) : 0 < (10 : ℝ) ^ x :=
  Real.rpow_pos_of_pos (by norm_num) x

theorem rpow_div_natCast_pow {b : ℝ} (hb : 0 ≤ b) (p q : ℕ) (hq : q ≠ 0) :
    (b ^ ((p : ℝ) / (q : ℝ))) ^ q = b ^ p := by
  rw [← Real.rpow_natCast (b ^ ((p : ℝ) / (q : ℝ))) q, ← Real.rpow_mul hb,
    div_mul_cancel₀ (p : ℝ) (by exact_mod_cast hq), Real.rpow_natCast]

theorem lt_rpow_div_of_pow_lt {b a : ℝ} (hb : 0 ≤ b) (ha : 0 ≤ a) {p q : ℕ} (hq : q ≠ 0)
    (h : a ^ q < b ^ p) : a < b ^ ((p : ℝ) / (q : ℝ)) := by
  by_contra hc
  push_neg at hc
  have h2 : (b ^ ((p : ℝ) / (q : ℝ))) ^ q ≤ a ^ q :=
    pow_le_pow_left₀ (Real.rpow_nonneg hb _) hc q
  rw [rpow_div_natCast_pow hb p q hq] at h2
  exact absurd h (not_lt.mpr h2)

theorem rpow_div_le_of_le_pow {b a : ℝ} (hb : 0 ≤ b) (ha : 0 ≤ a) {p q : ℕ} (hq : q ≠ 0)
    (h : b ^ p ≤ a ^ q) : b ^ ((p : ℝ) / (q : ℝ)) ≤ a := by
  by_contra hc
  push_neg at hc
  have h2 : a ^ q < (b ^ ((p : ℝ) / (q : ℝ))) ^ q := pow_lt_pow_left₀ hc ha hq
  rw [rpow_div_natCast_pow hb p q hq] at h2
  exact absurd h (not_le.mpr h2)

theorem snd_mem_of_mem_enumFrom {α : Type} :
    ∀ {l : List α} {m : ℕ} {q : ℕ × α}, q ∈ l.enumFrom m → q.2 ∈ l := by
  intro l
  induction l with
  | nil => intro m q h; simp [List.enumFrom] at h
  | cons a t ih =>
    intro m q h
    rcases List.mem_cons.mp h with rfl | h
    · exact List.mem_cons_self _ _
    · exact List.mem_cons_of_mem _ (ih h)

theorem pairwise_enumFrom {α : Type} {R : α → α → Prop} :
    ∀ (l : List α) (n : ℕ), l.Pairwise R →
      (l.enumFrom n).Pairwise fun p q => R p.2 q.2 := by
  intro l
  induction l with
  | nil => intro n _; simp [List.enumFrom]
  | cons a t ih =>
    intro n h
    rcases List.pairwise_cons.mp h with ⟨ha, ht⟩
    refine List.pairwise_cons.mpr ⟨?_, ih (n + 1) ht⟩
    intro q hq
    exact ha q.2 (snd_mem_of_mem_enumFrom hq)

theorem pairwise_filterMap_custom {α β : Type} (f : α → Option β)
    {R : α → α → Prop} {S : β → β → Prop}
    (H : ∀ a b x y, R a b → f a = some x → f b = some y → S x y) :
    ∀ {l : List α}, l.Pairwise R → (l.filterMap f).Pairwise S := by
  intro l
  induction l with
  | nil => intro _; simp
  | cons a t ih =>
    intro h
    rcases List.pairwise_cons.mp h with ⟨ha, ht⟩
    rw [List.filterMap_cons]
    cases hfa : f a with
    | none => exact ih ht
    | some x =>
      refine List.pairwise_cons.mpr ⟨?_, ih ht⟩
      intro y hy
      rcases List.mem_filterMap.mp hy with ⟨b, hb, hfb⟩
      exact H a b x y (ha b hb) hfa hfb

/-! ## Claim C7: blast overpressure radii -/

theorem calculateOverpressureRadius_anti {E P Q : ℝ} (hE : 0 ≤ E)
    (hP : 0 < P) (hPQ : P ≤ Q) :
    calculateOverpressureRadius E Q ≤ calculateOverpressureRadius E P := by
  unfold calculateOverpressureRadius
  refine max_le_max ?_ le_rfl
  have hQ : 0 < Q := lt_of_lt_of_le hP hPQ
  refine Real.rpow_le_rpow (by positivity) ?_ (by norm_num)
  gcongr

/-- C7: for energy at least 0 and angle in [0, 90], each blast radius equals
`(E sin(angle pi/180) / (4 pi P))^(1/3)` clamped at 0, at P = 6895, 34475 and
68950 Pa, and consequently `radius10psi <= radius5psi <= radius1psi`. -/
theorem blast_radii_formula_and_ordering (energy angle : ℝ)
    (hE : 0 ≤ energy) (h0 : 0 ≤ angle) (h90 : angle ≤ 90) :
    (calculateBlastWave energy angle).radius1psi =
      max ((energy * Real.sin (angle * Real.pi / 180) / (4 * Real.pi * 6895)) ^ ((1 : ℝ) / 3)) 0 ∧
    (calculateBlastWave energy angle).radius5psi =
      max ((energy * Real.sin (angle * Real.pi / 180) / (4 * Real.pi * 34475)) ^ ((1 : ℝ) / 3)) 0 ∧
    (calculateBlastWave energy angle).radius10psi =
      max ((energy * Real.sin (angle * Real.pi / 180) / (4 * Real.pi * 68950)) ^ ((1 : ℝ) / 3)) 0 ∧
    (calculateBlastWave energy angle).radius10psi ≤ (calculateBlastWave energy angle).radius5psi ∧
    (calculateBlastWave energy angle).radius5psi ≤ (calculateBlastWave energy angle).radius1psi := by
  have hsin : 0 ≤ Real.sin (angle * Real.pi / 180) := by
    apply Real.sin_nonneg_of_nonneg_of_le_pi
    · positivity
    · nlinarith [Real.pi_pos]
  have hEeff : 0 ≤ energy * Real.sin (angle * Real.pi / 180) := mul_nonneg hE hsin
  refine ⟨?_, ?_, ?_, ?_, ?_⟩
  · simp [calculateBlastWave, calculateEffectiveEnergy, calculateOverpressureRadius,
      DAMAGE_THRESHOLDS.OVERPRESSURE.LIGHT_DAMAGE]
  · simp [calculateBlastWave, calculateEffectiveEnergy, calculateOverpressureRadius,
      DAMAGE_THRESHOLDS.OVERPRESSURE.MODERATE_DAMAGE]
  · simp [calculateBlastWave, calculateEffectiveEnergy, calculateOverpressureRadius,
      DAMAGE_THRESHOLDS.OVERPRESSURE.HEAVY_DAMAGE]
  · show calculateOverpressureRadius _ _ ≤ calculateOverpressureRadius _ _
    apply calculateOverpressureRadius_anti
    · simpa [calculateEffectiveEnergy] using hEeff
    · norm_num [DAMAGE_THRESHOLDS.OVERPRESSURE.MODERATE_DAMAGE]
    · norm_num [DAMAGE_THRESHOLDS.OVERPRESSURE.MODERATE_DAMAGE,
        DAMAGE_THRESHOLDS.OVERPRESSURE.HEAVY_DAMAGE]
  · show calculateOverpressureRadius _ _ ≤ calculateOverpressureRadius _ _
    apply calculateOverpressureRadius_anti
    · simpa [calculateEffectiveEnergy] using hEeff
    · norm_num [DAMAGE_THRESHOLDS.OVERPRESSURE.LIGHT_DAMAGE]
    · norm_num [DAMAGE_THRESHOLDS.OVERPRESSURE.LIGHT_DAMAGE,
        DAMAGE_THRESHOLDS.OVERPRESSURE.MODERATE_DAMAGE]

/-- Witness for C7 at energy 0, angle 0. -/
theorem blast_radii_formula_and_ordering_witness :
    (0 : ℝ) ≤ 0 ∧ (0 : ℝ) ≤ 90 ∧
    ((calculateBlastWave 0 0).radius1psi =
      max ((0 * Real.sin (0 * Real.pi / 180) / (4 * Real.pi * 6895)) ^ ((1 : ℝ) / 3)) 0 ∧
    (calculateBlastWave 0 0).radius5psi =
      max ((0 * Real.sin (0 * Real.pi / 180) / (4 * Real.pi * 34475)) ^ ((1 : ℝ) / 3)) 0 ∧
    (calculateBlastWave 0 0).radius10psi =
      max ((0 * Real.sin (0 * Real.pi / 180) / (4 * Real.pi * 68950)) ^ ((1 : ℝ) / 3)) 0 ∧
    (calculateBlastWave 0 0).radius10psi ≤ (calculateBlastWave 0 0).radius5psi ∧
    (calculateBlastWave 0 0).radius5psi ≤ (calculateBlastWave 0 0).radius1psi) :=
  ⟨le_refl 0, by norm_num,
    blast_radii_formula_and_ordering 0 0 (le_refl 0) (le_refl 0) (by norm_num)⟩

/-! ## Claim C8: phase 2 is unconditionally enabled -/

/-- C8: `isPhase2Enabled()` is the constant `true`, and the phase-2 block is
present on a result exactly when the impactor survives the atmosphere - in
particular every surviving impact carries the seismic and tsunami fields. -/
theorem phase2_unconditionally_enabled :
    isPhase2Enabled = true ∧
    ∀ p : ImpactParameters,
      ((calculateImpact p).phase2).isSome = (calculateImpact p).survivesAtmosphere := by
  refine ⟨rfl, fun p => ?_⟩
  simp only [calculateImpact]
  cases hb : (calculateAtmosphericEntry p.diameter p.velocity p.angle
      (getAsteroidDensity p.composition)
      (calculateMass p.diameter (getAsteroidDensity p.composition))).survivesAtmosphere with
  | false => simp [hb]
  | true => simp [hb, isPhase2Enabled]

/-! ## Claim C5: seismic magnitude and the significance floor -/

/-- C5: for positive energy the seismic stage computes
`magnitude = clamp((log10(0.01 E) - 9.1) / 1.5, 0, 10)`, and a magnitude
strictly below 3.0 yields `significant = false` with an empty zone list. -/
theorem seismic_magnitude_and_significance_floor (energy : ℝ) (location : Location)
    (craterDiameter : ℝ) (hE : 0 < energy) :
    (calculateSeismicEffects energy location craterDiameter).magnitude =
      max 0 (min ((Real.logb 10 (0.01 * energy) - 9.1) / 1.5) 10) ∧
    ((calculateSeismicEffects energy location craterDiameter).magnitude < 3.0 →
      (calculateSeismicEffects energy location craterDiameter).significant = false ∧
      (calculateSeismicEffects energy location craterDiameter).zones = []) := by
  have hmag : (calculateSeismicEffects energy location craterDiameter).magnitude =
      calculateMagnitude energy := by
    unfold calculateSeismicEffects
    by_cases h : calculateMagnitude energy < 3.0 <;> simp [h]
  refine ⟨?_, ?_⟩
  · rw [hmag]
    unfold calculateMagnitude
    rw [mul_comm energy 0.01]
  · intro hlt
    rw [hmag] at hlt
    unfold calculateSeismicEffects
    rw [if_pos hlt]
    exact ⟨rfl, rfl⟩

/-- Witness for C5 at energy 1 (magnitude clamps to 0, below the floor). -/
theorem seismic_magnitude_and_significance_floor_witness :
    (0 : ℝ) < 1 ∧
    ((calculateSeismicEffects 1 { latitude := 0, longitude := 0 } 0).magnitude =
      max 0 (min ((Real.logb 10 (0.01 * 1) - 9.1) / 1.5) 10) ∧
    ((calculateSeismicEffects 1 { latitude := 0, longitude := 0 } 0).magnitude < 3.0 →
      (calculateSeismicEffects 1 { latitude := 0, longitude := 0 } 0).significant = false ∧
      (calculateSeismicEffects 1 { latitude := 0, longitude := 0 } 0).zones = [])) :=
  ⟨by norm_num,
    seismic_magnitude_and_significance_floor 1 { latitude := 0, longitude := 0 } 0 (by norm_num)⟩

/-! ## Bridging lemmas for the atmospheric-entry gate -/

theorem calculateAtmosphericEntry_airburst (d v a rho m : ℝ)
    (h : d < calculateSurvivalDiameter v rho) :
    calculateAtmosphericEntry d v a rho m =
      { survivesAtmosphere := false
        airburstAltitude := calculateAirburstAltitude d v rho
        airburstEnergy := m * (v * 1000) ^ 2 * 0.5
        finalVelocity := 0
        finalMass := 0
        finalDiameter := 0 } := by
  unfold calculateAtmosphericEntry
  rw [if_neg (not_le.mpr h)]

theorem calculateAtmosphericEntry_surviving (d v a rho m : ℝ)
    (h : calculateSurvivalDiameter v rho ≤ d) :
    calculateAtmosphericEntry d v a rho m =
      { survivesAtmosphere := true
        finalVelocity := calculateFinalVelocity v d rho
        finalMass := calculateFinalMass m d v rho
        finalDiameter := (calculateFinalMass m d v rho / rho * 6 / Real.pi) ^ ((1 : ℝ) / 3)
        airburstAltitude := 0
        airburstEnergy := 0 } := by
  unfold calculateAtmosphericEntry
  rw [if_pos h]

/-- On the surviving branch the pipeline returns the phase-1 and phase-2
blocks built from the post-entry values. -/
theorem calculateImpact_surviving (p : ImpactParameters)
    (h : calculateSurvivalDiameter p.velocity (impactDensity p) ≤ p.diameter) :
    (calculateImpact p).survivesAtmosphere = true ∧
    (calculateImpact p).phase1 = some (impactPhase1 p) ∧
    (calculateImpact p).phase2 = some (impactPhase2 p) := by
  have hatm := calculateAtmosphericEntry_surviving p.diameter p.velocity p.angle
    (impactDensity p) (impactMass p) h
  simp only [impactDensity, impactMass] at hatm
  refine ⟨?_, ?_, ?_⟩
  · simp [calculateImpact, hatm, isPhase2Enabled]
  · simp [calculateImpact, hatm, isPhase2Enabled, impactPhase1, impactCrater, impactBlast,
      impactThermal, impactFinalEnergy, impactFinalMass, impactFinalVelocity,
      impactFinalDiameter, impactMass, impactDensity]
  · simp [calculateImpact, hatm, isPhase2Enabled, impactPhase2, impactSeismic, impactTsunami,
      impactLocationOf, impactCrater, impactFinalEnergy, impactFinalMass,
      impactFinalVelocity, impactFinalDiameter, impactMass, impactDensity]

/-! ## Claim C1: sub-survival impactors airburst and short-circuit -/

/-- C1: a diameter strictly below the survival diameter yields
`survivesAtmosphere = false` with the airburst altitude and energy set, and
no crater / blast / thermal / seismic / tsunami fields. -/
theorem airburst_short_circuits_pipeline (p : ImpactParameters)
    (h : p.diameter < calculateSurvivalDiameter p.velocity (getAsteroidDensity p.composition)) :
    (calculateImpact p).survivesAtmosphere = false ∧
    (calculateImpact p).airburst = some
      { airburstAltitude :=
          calculateAirburstAltitude p.diameter p.velocity (getAsteroidDensity p.composition)
        airburstEnergy :=
          calculateMass p.diameter (getAsteroidDensity p.composition) *
            (p.velocity * 1000) ^ 2 * 0.5 } ∧
    (calculateImpact p).phase1 = none ∧ (calculateImpact p).phase2 = none := by
  have hatm := calculateAtmosphericEntry_airburst p.diameter p.velocity p.angle
    (getAsteroidDensity p.composition)
    (calculateMass p.diameter (getAsteroidDensity p.composition)) h
  simp [calculateImpact, hatm]

/-- Witness for C1: a 10 m rocky body at 20 km/s (survival diameter 50 m). -/
theorem airburst_short_circuits_pipeline_witness :
    (10 : ℝ) < calculateSurvivalDiameter 20 (getAsteroidDensity (AsteroidComposition.custom 3000)) ∧
    ((calculateImpact
        { diameter := 10, velocity := 20, angle := 45,
          composition := AsteroidComposition.custom 3000,
          latitude := 0, longitude := 0 }).survivesAtmosphere = false ∧
      (calculateImpact
        { diameter := 10, velocity := 20, angle := 45,
          composition := AsteroidComposition.custom 3000,
          latitude := 0, longitude := 0 }).airburst = some
        { airburstAltitude := calculateAirburstAltitude 10 20
            (getAsteroidDensity (AsteroidComposition.custom 3000))
          airburstEnergy := calculateMass 10 (getAsteroidDensity (AsteroidComposition.custom 3000)) *
            ((20 : ℝ) * 1000) ^ 2 * 0.5 } ∧
      (calculateImpact
        { diameter := 10, velocity := 20, angle := 45,
          composition := AsteroidComposition.custom 3000,
          latitude := 0, longitude := 0 }).phase1 = none ∧
      (calculateImpact
        { diameter := 10, velocity := 20, angle := 45,
          composition := AsteroidComposition.custom 3000,
          latitude := 0, longitude := 0 }).phase2 = none) := by
  have hden : getAsteroidDensity (AsteroidComposition.custom 3000) = 3000 := by
    norm_num [getAsteroidDensity]
  have hsd : (10 : ℝ) < calculateSurvivalDiameter 20 (getAsteroidDensity (AsteroidComposition.custom 3000)) := by
    rw [hden]
    unfold calculateSurvivalDiameter
    norm_num [Real.sqrt_one, Real.one_rpow]
  exact ⟨hsd, airburst_short_circuits_pipeline
    { diameter := 10, velocity := 20, angle := 45,
      composition := AsteroidComposition.custom 3000, latitude := 0, longitude := 0 } hsd⟩

/-! ## Claim C3: thermal burn-radius ordering -/

theorem calculateBurnRadius_eq (fb : Fireball) (t : ℝ) :
    calculateBurnRadius fb t =
      max (fb.radius *
        Real.sqrt (fb.totalRadiantEnergy / (4 * Real.pi * fb.radius ^ 2) / (t * 10000)))
        fb.radius := rfl

theorem calculateBurnRadius_anti (fb : Fireball) {t1 t2 : ℝ}
    (hF : 0 ≤ fb.totalRadiantEnergy) (hR : 0 ≤ fb.radius)
    (ht1 : 0 < t1) (ht : t1 ≤ t2) :
    calculateBurnRadius fb t2 ≤ calculateBurnRadius fb t1 := by
  rw [calculateBurnRadius_eq, calculateBurnRadius_eq]
  refine max_le_max ?_ le_rfl
  refine mul_le_mul_of_nonneg_left ?_ hR
  apply Real.sqrt_le_sqrt
  have hFl : 0 ≤ fb.totalRadiantEnergy / (4 * Real.pi * fb.radius ^ 2) :=
    div_nonneg hF (by positivity)
  gcongr

/-- C3 (amended): for every positive energy the three burn radii satisfy the
non-strict ordering `radius3deg <= radius2deg <= radius1deg`; the ordering
need not be strict, because each radius is floored at the fireball radius. -/
theorem thermal_radii_ordering (energy diameter : ℝ) (hE : 0 < energy) :
    (calculateThermalRadiation energy diameter).radius3deg ≤
      (calculateThermalRadiation energy diameter).radius2deg ∧
    (calculateThermalRadiation energy diameter).radius2deg ≤
      (calculateThermalRadiation energy diameter).radius1deg := by
  have hF : 0 ≤ (calculateFireball energy).totalRadiantEnergy :=
    mul_nonneg hE.le (by norm_num)
  have hR : 0 ≤ (calculateFireball energy).radius :=
    mul_nonneg (Real.rpow_nonneg (div_nonneg hE.le (by norm_num)) _) (by norm_num)
  constructor
  · show calculateBurnRadius _ _ ≤ calculateBurnRadius _ _
    exact calculateBurnRadius_anti _ hF hR
      (by norm_num [DAMAGE_THRESHOLDS.THERMAL.SECOND_DEGREE_BURN])
      (by norm_num [DAMAGE_THRESHOLDS.THERMAL.SECOND_DEGREE_BURN,
        DAMAGE_THRESHOLDS.THERMAL.THIRD_DEGREE_BURN])
  · show calculateBurnRadius _ _ ≤ calculateBurnRadius _ _
    exact calculateBurnRadius_anti _ hF hR
      (by norm_num [DAMAGE_THRESHOLDS.THERMAL.FIRST_DEGREE_BURN])
      (by norm_num [DAMAGE_THRESHOLDS.THERMAL.FIRST_DEGREE_BURN,
        DAMAGE_THRESHOLDS.THERMAL.SECOND_DEGREE_BURN])

/-- Witness for C3 at one ton of TNT. -/
theorem thermal_radii_ordering_witness :
    (0 : ℝ) < 4.184e9 ∧
    ((calculateThermalRadiation 4.184e9 0).radius3deg ≤
      (calculateThermalRadiation 4.184e9 0).radius2deg ∧
    (calculateThermalRadiation 4.184e9 0).radius2deg ≤
      (calculateThermalRadiation 4.184e9 0).radius1deg) :=
  ⟨by norm_num, thermal_radii_ordering 4.184e9 0 (by norm_num)⟩

/-- Counterexample to C3 as stated: at energy 4.184e9 J the fireball floor
makes the 1st- and 2nd-degree radii equal, so the ordering is not strict. -/
theorem thermal_strict_ordering_counterexample :
    (calculateThermalRadiation 4.184e9 0).radius1deg =
      (calculateThermalRadiation 4.184e9 0).radius2deg := by
  have hfb : calculateFireball 4.184e9 =
      { radius := 180, duration := 0.4, temperature := 6000,
        totalRadiantEnergy := 4.184e9 * 0.35 } := by
    simp [calculateFireball, show (4.184e9 : ℝ) / 4.184e9 = 1 by norm_num, Real.one_rpow]
  have key : ∀ t : ℝ, 25 ≤ t → calculateBurnRadius (calculateFireball 4.184e9) t = 180 := by
    intro t ht
    rw [hfb, calculateBurnRadius_eq]
    have harg : (4.184e9 * 0.35 / (4 * Real.pi * (180 : ℝ) ^ 2)) / (t * 10000) ≤ 1 := by
      rw [div_le_one (by nlinarith), div_le_iff₀ (by positivity)]
      nlinarith [Real.pi_gt_three]
    have hsq : Real.sqrt ((4.184e9 * 0.35 / (4 * Real.pi * (180 : ℝ) ^ 2)) / (t * 10000)) ≤ 1 :=
      Real.sqrt_le_one.mpr harg
    have h180 : (180 : ℝ) * Real.sqrt ((4.184e9 * 0.35 / (4 * Real.pi * (180 : ℝ) ^ 2)) / (t * 10000)) ≤ 180 := by
      nlinarith [Real.sqrt_nonneg ((4.184e9 * 0.35 / (4 * Real.pi * (180 : ℝ) ^ 2)) / (t * 10000))]
    exact max_eq_right h180
  have h1 : (calculateThermalRadiation 4.184e9 0).radius1deg =
      calculateBurnRadius (calculateFireball 4.184e9) DAMAGE_THRESHOLDS.THERMAL.FIRST_DEGREE_BURN := rfl
  have h2 : (calculateThermalRadiation 4.184e9 0).radius2deg =
      calculateBurnRadius (calculateFireball 4.184e9) DAMAGE_THRESHOLDS.THERMAL.SECOND_DEGREE_BURN := rfl
  rw [h1, h2, key _ (by norm_num [DAMAGE_THRESHOLDS.THERMAL.FIRST_DEGREE_BURN]),
    key _ (by norm_num [DAMAGE_THRESHOLDS.THERMAL.SECOND_DEGREE_BURN])]

/-! ## Claim C2: seismic zone ordering -/

theorem calculateIntensityRadius_eq (m i : ℝ) (loc : Location) :
    calculateIntensityRadius m i loc =
      (10 : ℝ) ^ ((2.0 + 1.5 * m + 0 - i) / 3.5) * 1000 := by
  simp only [calculateIntensityRadius, getSiteAmplification]
  rw [max_eq_left (by positivity)]

theorem calculateIntensityRadius_pos (m i : ℝ) (loc : Location) :
    0 < calculateIntensityRadius m i loc := by
  rw [calculateIntensityRadius_eq]
  positivity

theorem calculateIntensityRadius_lt (m : ℝ) (loc : Location) {i j : ℝ} (h : j < i) :
    calculateIntensityRadius m i loc < calculateIntensityRadius m j loc := by
  rw [calculateIntensityRadius_eq, calculateIntensityRadius_eq]
  have hexp : (2.0 + 1.5 * m + 0 - i) / 3.5 < (2.0 + 1.5 * m + 0 - j) / 3.5 := by
    have h35 : (0:ℝ) < 3.5 := by norm_num
    rw [div_lt_div_iff h35 h35]
    nlinarith
  have hlt : (10 : ℝ) ^ ((2.0 + 1.5 * m + 0 - i) / 3.5) <
      (10 : ℝ) ^ ((2.0 + 1.5 * m + 0 - j) / 3.5) :=
    Real.rpow_lt_rpow_of_exponent_lt (by norm_num) hexp
  nlinarith [ten_rpow_pos ((2.0 + 1.5 * m + 0 - i) / 3.5)]

theorem intensityZoneOfLevel_intensity {m : ℝ} {loc : Location} {cd : ℝ} {base : ℕ}
    {p : ℕ × ℕ} {z : IntensityZone}
    (h : intensityZoneOfLevel m loc cd base p = some z) :
    z.intensity = p.2 ∧ z.radius = calculateIntensityRadius m (p.2 : ℝ) loc := by
  simp only [intensityZoneOfLevel] at h
  split at h
  · cases h
    exact ⟨rfl, rfl⟩
  · cases h

theorem mem_intensitiesFrom_le : ∀ (n a : ℕ), a ∈ intensitiesFrom n → a ≤ n := by
  intro n
  induction n using Nat.strong_induction_on with
  | _ n ih =>
    obtain _ | _ | _ | k := n
    · intro a h; simp [intensitiesFrom] at h
    · intro a h; simp [intensitiesFrom] at h
    · intro a h; simp [intensitiesFrom] at h
    · intro a h
      rw [intensitiesFrom] at h
      rcases List.mem_cons.mp h with rfl | h
      · exact le_refl _
      · exact le_trans (ih (k + 1) (by omega) a h) (by omega)

theorem pairwise_intensitiesFrom : ∀ n : ℕ, (intensitiesFrom n).Pairwise fun a b => b < a := by
  intro n
  induction n using Nat.strong_induction_on with
  | _ n ih =>
    obtain _ | _ | _ | k := n
    · simp [intensitiesFrom]
    · simp [intensitiesFrom]
    · simp [intensitiesFrom]
    · rw [intensitiesFrom]
      refine List.pairwise_cons.mpr ⟨?_, ih (k + 1) (by omega)⟩
      intro b hb
      exact lt_of_le_of_lt (mem_intensitiesFrom_le (k + 1) b hb) (by omega)

/-- The zone list of one event is pairwise ordered: strictly descending in
radius and strictly ascending in Modified Mercalli intensity. -/
theorem calculateIntensityZones_pairwise (m : ℝ) (loc : Location) (cd : ℝ) :
    (calculateIntensityZones m loc cd).Pairwise
      fun a b => b.radius < a.radius ∧ a.intensity < b.intensity := by
  simp only [calculateIntensityZones]
  have hlev := pairwise_intensitiesFrom ((min 12 (max 3 ⌊m * 1.5 + 2⌋)).toNat)
  have henum := pairwise_enumFrom _ 0 hlev
  have hzones :
      ((intensitiesFrom ((min 12 (max 3 ⌊m * 1.5 + 2⌋)).toNat)).enum.filterMap
        (intensityZoneOfLevel m loc cd ((min 12 (max 3 ⌊m * 1.5 + 2⌋)).toNat))).Pairwise
        fun a b => a.radius < b.radius ∧ b.intensity < a.intensity := by
    refine pairwise_filterMap_custom _ ?_ henum
    intro p q x y hpq hfp hfq
    obtain ⟨hxi, hxr⟩ := intensityZoneOfLevel_intensity hfp
    obtain ⟨hyi, hyr⟩ := intensityZoneOfLevel_intensity hfq
    constructor
    · rw [hxr, hyr]
      exact calculateIntensityRadius_lt m loc (by exact_mod_cast hpq)
    · rw [hxi, hyi]
      exact hpq
  have hsorted := pairwise_sortByKey (fun z : IntensityZone => -z.radius)
    ((intensitiesFrom ((min 12 (max 3 ⌊m * 1.5 + 2⌋)).toNat)).enum.filterMap
      (intensityZoneOfLevel m loc cd ((min 12 (max 3 ⌊m * 1.5 + 2⌋)).toNat)))
  have hS := pairwise_sortByKey_of_symm (fun z : IntensityZone => -z.radius)
    (R := fun a b : IntensityZone =>
      a.radius ≠ b.radius ∧
      (b.radius < a.radius → a.intensity < b.intensity) ∧
      (a.radius < b.radius → b.intensity < a.intensity))
    (fun a b h => ⟨h.1.symm, h.2.2, h.2.1⟩)
    (hzones.imp fun {a b} h =>
      ⟨ne_of_lt h.1, fun hba => absurd hba (not_lt.mpr (le_of_lt h.1)),
        fun _ => h.2⟩)
  refine (hsorted.and hS).imp ?_
  intro a b h
  obtain ⟨hle, hne, himp, _⟩ := h
  have hble : b.radius ≤ a.radius := by linarith [hle]
  have hlt : b.radius < a.radius := lt_of_le_of_ne hble hne.symm
  exact ⟨hlt, himp hlt⟩

/-- C2 (amended): in every seismic result the zone list is ordered by
strictly descending radius, and across it the radius strictly increases as
the intensity decreases (the zone with lower Modified Mercalli intensity has
the strictly larger radius). -/
theorem seismic_zones_ordering (energy : ℝ) (location : Location) (craterDiameter : ℝ) :
    ((calculateSeismicEffects energy location craterDiameter).zones).Pairwise
      fun a b => b.radius < a.radius ∧ a.intensity < b.intensity := by
  unfold calculateSeismicEffects
  by_cases h : calculateMagnitude energy < 3.0
  · simp [h]
  · simp only [h, if_false]
    exact calculateIntensityZones_pairwise _ _ _

/-- Counterexample to C2 as stated: at magnitude 6 (energy `10^20.1` J) with
a 1000 m crater, the seismic result has at least two zones and the zone with
the lower intensity has the strictly larger radius, not a smaller one. -/
theorem seismic_zones_ordering_counterexample :
    ¬ (∀ a ∈ (calculateSeismicEffects ((10 : ℝ) ^ (20.1 : ℝ))
          { latitude := 0, longitude := 0 } 1000).zones,
       ∀ b ∈ (calculateSeismicEffects ((10 : ℝ) ^ (20.1 : ℝ))
          { latitude := 0, longitude := 0 } 1000).zones,
         a.intensity < b.intensity → a.radius < b.radius) := by
  have h001 : (0.01 : ℝ) = (10 : ℝ) ^ (-2 : ℝ) := by
    have hcast : ((-2 : ℤ) : ℝ) = (-2 : ℝ) := by norm_num
    rw [← hcast, Real.rpow_intCast]
    norm_num
  have hprod : (10 : ℝ) ^ (20.1 : ℝ) * 0.01 = (10 : ℝ) ^ (18.1 : ℝ) := by
    rw [h001, ← Real.rpow_add (by norm_num : (0 : ℝ) < 10)]
    norm_num
  have hmag : calculateMagnitude ((10 : ℝ) ^ (20.1 : ℝ)) = 6 := by
    simp only [calculateMagnitude]
    rw [hprod, Real.logb_rpow (by norm_num : (0:ℝ) < 10) (by norm_num : (10:ℝ) ≠ 1)]
    norm_num [min_def, max_def]
  have hzeq : (calculateSeismicEffects ((10 : ℝ) ^ (20.1 : ℝ))
      { latitude := 0, longitude := 0 } 1000).zones =
      calculateIntensityZones 6 { latitude := 0, longitude := 0 } 1000 := by
    simp only [calculateSeismicEffects]
    rw [hmag, if_neg (by norm_num : ¬((6 : ℝ) < 3.0))]
  have hfloor : ⌊(6 : ℝ) * 1.5 + 2⌋ = 11 := by
    rw [Int.floor_eq_iff]
    norm_num
  have hbase : ((min 12 (max 3 ⌊(6 : ℝ) * 1.5 + 2⌋)).toNat) = 11 := by
    rw [hfloor]
    decide
  have hceq : calculateIntensityZones 6 { latitude := 0, longitude := 0 } 1000 =
      sortByKey (fun z : IntensityZone => -z.radius)
        ((intensitiesFrom 11).enum.filterMap
          (intensityZoneOfLevel 6 { latitude := 0, longitude := 0 } 1000 11)) := by
    simp only [calculateIntensityZones]
    rw [hbase]
  have hcond5 : (max ((1000 : ℝ) * (2 : ℝ) ^ ((((11 : ℕ) : ℝ) - ((5 : ℕ) : ℝ)) / 2)) 500) <
      calculateIntensityRadius 6 ((5 : ℕ) : ℝ) { latitude := 0, longitude := 0 } := by
    push_cast
    rw [calculateIntensityRadius_eq]
    have h2 : ((11 : ℝ) - 5) / 2 = ((3 : ℕ) : ℝ) := by norm_num
    rw [h2, Real.rpow_natCast]
    rw [max_eq_left (by norm_num)]
    have hexp : (2.0 + 1.5 * 6 + 0 - (5 : ℝ)) / 3.5 = ((12 : ℕ) : ℝ) / ((7 : ℕ) : ℝ) := by
      norm_num
    rw [hexp]
    have h8 : (8 : ℝ) < 10 ^ (((12 : ℕ) : ℝ) / ((7 : ℕ) : ℝ)) :=
      lt_rpow_div_of_pow_lt (by norm_num) (by norm_num) (by norm_num) (by norm_num)
    nlinarith [h8]
  have hcond3 : (max ((1000 : ℝ) * (2 : ℝ) ^ ((((11 : ℕ) : ℝ) - ((3 : ℕ) : ℝ)) / 2)) 500) <
      calculateIntensityRadius 6 ((3 : ℕ) : ℝ) { latitude := 0, longitude := 0 } := by
    push_cast
    rw [calculateIntensityRadius_eq]
    have h2 : ((11 : ℝ) - 3) / 2 = ((4 : ℕ) : ℝ) := by norm_num
    rw [h2, Real.rpow_natCast]
    rw [max_eq_left (by norm_num)]
    have hexp : (2.0 + 1.5 * 6 + 0 - (3 : ℝ)) / 3.5 = ((16 : ℕ) : ℝ) / ((7 : ℕ) : ℝ) := by
      norm_num
    rw [hexp]
    have h16 : (16 : ℝ) < 10 ^ (((16 : ℕ) : ℝ) / ((7 : ℕ) : ℝ)) :=
      lt_rpow_div_of_pow_lt (by norm_num) (by norm_num) (by norm_num) (by norm_num)
    nlinarith [h16]
  have hsome5 : (intensityZoneOfLevel 6 { latitude := 0, longitude := 0 } 1000 11 (3, 5)).isSome := by
    simp only [intensityZoneOfLevel]
    rw [if_pos hcond5]
    rfl
  have hsome3 : (intensityZoneOfLevel 6 { latitude := 0, longitude := 0 } 1000 11 (4, 3)).isSome := by
    simp only [intensityZoneOfLevel]
    rw [if_pos hcond3]
    rfl
  obtain ⟨z5, hz5⟩ := Option.isSome_iff_exists.mp hsome5
  obtain ⟨z3, hz3⟩ := Option.isSome_iff_exists.mp hsome3
  obtain ⟨hz5i, hz5r⟩ := intensityZoneOfLevel_intensity hz5
  obtain ⟨hz3i, hz3r⟩ := intensityZoneOfLevel_intensity hz3
  have hm5 : z5 ∈ (calculateSeismicEffects ((10 : ℝ) ^ (20.1 : ℝ))
      { latitude := 0, longitude := 0 } 1000).zones := by
    rw [hzeq, hceq]
    refine (perm_sortByKey _ _).mem_iff.mpr ?_
    exact List.mem_filterMap.mpr ⟨(3, 5), by decide, hz5⟩
  have hm3 : z3 ∈ (calculateSeismicEffects ((10 : ℝ) ^ (20.1 : ℝ))
      { latitude := 0, longitude := 0 } 1000).zones := by
    rw [hzeq, hceq]
    refine (perm_sortByKey _ _).mem_iff.mpr ?_
    exact List.mem_filterMap.mpr ⟨(4, 3), by decide, hz3⟩
  intro H
  have h35 := H z3 hm3 z5 hm5 (by rw [hz3i, hz5i]; norm_num)
  rw [hz3r, hz5r] at h35
  have hgt := calculateIntensityRadius_lt 6 { latitude := 0, longitude := 0 }
    (show ((3 : ℕ) : ℝ) < ((5 : ℕ) : ℝ) by norm_num)
  exact absurd h35 (not_lt.mpr hgt.le)

/-! ## Claim C6: tsunami propagation bounds and coastal ordering -/

theorem buildWaveFronts_spec (iw : InitialWave) :
    ∀ (fuel step : ℕ),
      (buildWaveFronts iw fuel step).length ≤ fuel ∧
      ∀ f ∈ buildWaveFronts iw fuel step,
        0.01 ≤ f.height ∧ f.radius ≤ 20000 * 1000 ∧
        ∃ k : ℕ, step ≤ k ∧ k < step + fuel ∧ f.time = (k : ℝ) * 3600 := by
  intro fuel
  induction fuel with
  | zero => intro step; simp [buildWaveFronts]
  | succ n ih =>
    intro step
    simp only [buildWaveFronts]
    by_cases h1 : (20000 : ℝ) * 1000 < iw.speed * ((step : ℝ) * 3600)
    · simp [h1]
    · by_cases h2 :
        calculateWaveHeightDecay iw.height (iw.speed * ((step : ℝ) * 3600)) iw.wavelength < 0.01
      · simp [h1, h2]
      · simp only [h1, h2, if_false]
        constructor
        · simpa using Nat.succ_le_succ (ih (step + 1)).1
        · intro f hf
          rcases List.mem_cons.mp hf with rfl | hf
          · exact ⟨not_lt.mp h2, not_lt.mp h1, step, le_refl _, by omega, rfl⟩
          · obtain ⟨hh, hr, k, hk1, hk2, hk3⟩ := (ih (step + 1)).2 f hf
            exact ⟨hh, hr, k, by omega, by omega, hk3⟩

/-- C6: a propagation result has at most 24 wave fronts, each at a one-hour
time step below 24 h, with height at least 0.01 m and radius at most
20,000 km; coastal effects are ordered by ascending arrival time; and the
same holds of the propagation and coastal fields of every tsunami result. -/
theorem tsunami_propagation_and_coastal_order :
    (∀ (iw : InitialWave) (ep : Location),
      (modelWavePropagation iw ep).waveFronts.length ≤ 24 ∧
      ∀ f ∈ (modelWavePropagation iw ep).waveFronts,
        0.01 ≤ f.height ∧ f.radius ≤ 20000 * 1000 ∧
        ∃ k : ℕ, k < 24 ∧ f.time = (k : ℝ) * 3600) ∧
    (∀ (pd : PropagationData) (ep : Location),
      (calculateCoastalEffects pd ep).Pairwise fun a b => a.arrivalTime ≤ b.arrivalTime) ∧
    (∀ (energy : ℝ) (loc : Location) (cd : ℝ) (pr : PropagationData),
      (calculateTsunami energy loc cd).propagation = some pr →
        pr.waveFronts.length ≤ 24 ∧
        ∀ f ∈ pr.waveFronts, 0.01 ≤ f.height ∧ f.radius ≤ 20000 * 1000) ∧
    (∀ (energy : ℝ) (loc : Location) (cd : ℝ),
      (calculateTsunami energy loc cd).coastalEffects.Pairwise
        fun a b => a.arrivalTime ≤ b.arrivalTime) := by
  have hmodel : ∀ (iw : InitialWave) (ep : Location),
      (modelWavePropagation iw ep).waveFronts.length ≤ 24 ∧
      ∀ f ∈ (modelWavePropagation iw ep).waveFronts,
        0.01 ≤ f.height ∧ f.radius ≤ 20000 * 1000 ∧
        ∃ k : ℕ, k < 24 ∧ f.time = (k : ℝ) * 3600 := by
    intro iw ep
    obtain ⟨hlen, hmem⟩ := buildWaveFronts_spec iw 24 0
    refine ⟨hlen, fun f hf => ?_⟩
    obtain ⟨hh, hr, k, _, hk2, hk3⟩ := hmem f hf
    exact ⟨hh, hr, k, by omega, hk3⟩
  have hcoast : ∀ (pd : PropagationData) (ep : Location),
      (calculateCoastalEffects pd ep).Pairwise fun a b => a.arrivalTime ≤ b.arrivalTime := by
    intro pd ep
    simp only [calculateCoastalEffects]
    exact pairwise_sortByKey (fun e : CoastalEffect => e.arrivalTime) _
  refine ⟨hmodel, hcoast, ?_, ?_⟩
  · intro energy loc cd pr hpr
    simp only [calculateTsunami] at hpr
    by_cases h1 : (determineOceanImpact loc).inOcean = false
    · simp [h1] at hpr
    · by_cases h2 :
        (calculateInitialWave energy (determineOceanImpact loc).waterDepth cd).height < 0.1
      · simp [h1, h2] at hpr
      · simp only [h1, h2, if_false] at hpr
        rcases Option.some_inj.mp hpr with rfl
        obtain ⟨hlen, hmem⟩ := hmodel
          (calculateInitialWave energy (determineOceanImpact loc).waterDepth cd) loc
        exact ⟨hlen, fun f hf => ⟨(hmem f hf).1, (hmem f hf).2.1⟩⟩
  · intro energy loc cd
    simp only [calculateTsunami]
    by_cases h1 : (determineOceanImpact loc).inOcean = false
    · simp [h1]
    · by_cases h2 :
        (calculateInitialWave energy (determineOceanImpact loc).waterDepth cd).height < 0.1
      · simp [h1, h2]
      · simp only [h1, h2, if_false]
        exact hcoast _ _

/-! ## Claim C10: a grazing (0 degree) impact -/

theorem calculateCraterDiameter_zero (v m : ℝ) : calculateCraterDiameter 0 v m = 0 := by
  simp [calculateCraterDiameter, Real.zero_rpow (by norm_num : (0.25 : ℝ) ≠ 0)]

theorem calculateCrater_angle_zero (d v rho E : ℝ) :
    (calculateCrater d v 0 rho E).diameter = 0 ∧ (calculateCrater d v 0 rho E).depth = 0 := by
  have heff : E * Real.sin (0 * Real.pi / 180) = 0 := by simp
  constructor
  · simp [calculateCrater, heff, calculateCraterDiameter_zero]
  · simp [calculateCrater, heff, calculateCraterDiameter_zero, calculateCraterDepth]

theorem calculateOverpressureRadius_zero (P : ℝ) : calculateOverpressureRadius 0 P = 0 := by
  simp [calculateOverpressureRadius, Real.zero_rpow (by norm_num : ((1 : ℝ) / 3) ≠ 0)]

theorem calculateEffectiveEnergy_angle_zero (E : ℝ) : calculateEffectiveEnergy E 0 = 0 := by
  simp [calculateEffectiveEnergy]

theorem calculateBlastWave_angle_zero (E : ℝ) :
    (calculateBlastWave E 0).radius1psi = 0 ∧ (calculateBlastWave E 0).radius5psi = 0 ∧
    (calculateBlastWave E 0).radius10psi = 0 ∧
    ∀ e ∈ (calculateBlastWave E 0).overpressureRadii, e.radius = 0 := by
  refine ⟨?_, ?_, ?_, ?_⟩
  · show calculateOverpressureRadius (calculateEffectiveEnergy E 0) _ = 0
    rw [calculateEffectiveEnergy_angle_zero, calculateOverpressureRadius_zero]
  · show calculateOverpressureRadius (calculateEffectiveEnergy E 0) _ = 0
    rw [calculateEffectiveEnergy_angle_zero, calculateOverpressureRadius_zero]
  · show calculateOverpressureRadius (calculateEffectiveEnergy E 0) _ = 0
    rw [calculateEffectiveEnergy_angle_zero, calculateOverpressureRadius_zero]
  · intro e he
    have : e ∈ calculateMultipleRadii (calculateEffectiveEnergy E 0) := he
    rw [calculateEffectiveEnergy_angle_zero] at this
    rcases List.mem_map.mp this with ⟨p, _, rfl⟩
    exact calculateOverpressureRadius_zero p

theorem calculateFireball_radius_pos {E : ℝ} (hE : 0 < E) :
    0 < (calculateFireball E).radius := by
  simp only [calculateFireball]
  exact mul_pos (Real.rpow_pos_of_pos (by positivity) _) (by norm_num)

theorem calculateThermalRadiation_pos {E : ℝ} (d : ℝ) (hE : 0 < E) :
    0 < (calculateThermalRadiation E d).radius1deg ∧
    0 < (calculateThermalRadiation E d).radius2deg ∧
    0 < (calculateThermalRadiation E d).radius3deg ∧
    0 < (calculateThermalRadiation E d).fireball.radius := by
  have hR := calculateFireball_radius_pos hE
  have key : ∀ t : ℝ, (calculateFireball E).radius ≤ calculateBurnRadius (calculateFireball E) t := by
    intro t
    rw [calculateBurnRadius_eq]
    exact le_max_right _ _
  exact ⟨lt_of_lt_of_le hR (key _), lt_of_lt_of_le hR (key _), lt_of_lt_of_le hR (key _), hR⟩

theorem calculateMass_pos {d rho : ℝ} (hd : 0 < d) (hrho : 0 < rho) :
    0 < calculateMass d rho := by
  simp only [calculateMass]
  have h3 : (0 : ℝ) < (d / 2) ^ 3 := pow_pos (by linarith) 3
  have h1 : (0 : ℝ) < 4 / 3 * Real.pi := by positivity
  exact mul_pos (mul_pos h1 h3) hrho

theorem calculateMassLossRatio_le (d v rho : ℝ) :
    calculateMassLossRatio d v rho ≤ 0.9 := min_le_right _ _

theorem calculateFinalMass_pos {m d v rho : ℝ} (hm : 0 < m) :
    0 < calculateFinalMass m d v rho := by
  simp only [calculateFinalMass]
  have h9 := calculateMassLossRatio_le d v rho
  nlinarith

theorem calculateFinalVelocity_pos {v : ℝ} (d rho : ℝ) (hv : 0 < v) :
    0 < calculateFinalVelocity v d rho := by
  simp only [calculateFinalVelocity]
  have h5 : (0.5 : ℝ) ≤ max (1 - calculateMassLossRatio d v rho * 0.3) 0.5 :=
    le_max_right _ _
  nlinarith

theorem calculateKineticEnergy_pos {m v : ℝ} (hm : 0 < m) (hv : 0 < v) :
    0 < calculateKineticEnergy m v := by
  simp only [calculateKineticEnergy]
  have : (0 : ℝ) < (v * 1000) ^ 2 := pow_pos (by nlinarith) 2
  nlinarith

/-- C10: a surviving impact at exactly 0 degrees has zero crater diameter,
zero crater depth and zero blast overpressure radii (the `sin(angle)`
coupling factor vanishes), while the fireball and the three thermal burn
radii stay strictly positive (the thermal stage ignores the angle). -/
theorem angle_zero_zeroes_crater_and_blast
    (diameter velocity density lat lng : ℝ)
    (hd : 0 < diameter) (hv : 0 < velocity) (hrho : 0 < density)
    (hsurv : calculateSurvivalDiameter velocity density ≤ diameter) :
    ∃ f : Phase1Fields,
      (calculateImpact
        { diameter := diameter, velocity := velocity, angle := 0,
          composition := AsteroidComposition.custom density,
          latitude := lat, longitude := lng }).phase1 = some f ∧
      f.craterDiameter = 0 ∧ f.craterDepth = 0 ∧
      f.blastRadius1psi = 0 ∧ f.blastRadius5psi = 0 ∧ f.blastRadius10psi = 0 ∧
      (∀ e ∈ f.overpressureRadii, e.radius = 0) ∧
      0 < f.fireball.radius ∧
      0 < f.thermalRadius1deg ∧ 0 < f.thermalRadius2deg ∧ 0 < f.thermalRadius3deg := by
  have hden : getAsteroidDensity (AsteroidComposition.custom density) = density := by
    simp [getAsteroidDensity, hrho.ne']
  have hatm := calculateAtmosphericEntry_surviving diameter velocity 0 density
    (calculateMass diameter density) hsurv
  have hm := calculateMass_pos hd hrho
  have hfm : 0 < calculateFinalMass (calculateMass diameter density) diameter velocity density :=
    calculateFinalMass_pos hm
  have hfv : 0 < calculateFinalVelocity velocity diameter density :=
    calculateFinalVelocity_pos diameter density hv
  have hfE : 0 < calculateKineticEnergy
      (calculateFinalMass (calculateMass diameter density) diameter velocity density)
      (calculateFinalVelocity velocity diameter density) :=
    calculateKineticEnergy_pos hfm hfv
  have hfE' : 0 < impactFinalEnergy
      { diameter := diameter, velocity := velocity, angle := 0,
        composition := AsteroidComposition.custom density, latitude := lat, longitude := lng } := by
    simp only [impactFinalEnergy, impactFinalMass, impactFinalVelocity, impactMass, impactDensity,
      hden]
    exact calculateKineticEnergy_pos
      (calculateFinalMass_pos (calculateMass_pos hd hrho))
      (calculateFinalVelocity_pos _ _ hv)
  have hbridge := calculateImpact_surviving
    { diameter := diameter, velocity := velocity, angle := 0,
      composition := AsteroidComposition.custom density, latitude := lat, longitude := lng }
    (by simpa [impactDensity, hden] using hsurv)
  refine ⟨_, hbridge.2.1, ?_, ?_, ?_, ?_, ?_, ?_, ?_, ?_, ?_, ?_⟩
  · show (impactCrater _).diameter = 0
    simp only [impactCrater]
    exact (calculateCrater_angle_zero _ _ _ _).1
  · show (impactCrater _).depth = 0
    simp only [impactCrater]
    exact (calculateCrater_angle_zero _ _ _ _).2
  · show (impactBlast _).radius1psi = 0
    simp only [impactBlast]
    exact (calculateBlastWave_angle_zero _).1
  · show (impactBlast _).radius5psi = 0
    simp only [impactBlast]
    exact (calculateBlastWave_angle_zero _).2.1
  · show (impactBlast _).radius10psi = 0
    simp only [impactBlast]
    exact (calculateBlastWave_angle_zero _).2.2.1
  · show ∀ e ∈ (impactBlast _).overpressureRadii, e.radius = 0
    simp only [impactBlast]
    exact (calculateBlastWave_angle_zero _).2.2.2
  · show 0 < (impactThermal _).fireball.radius
    simp only [impactThermal]
    exact (calculateThermalRadiation_pos _ hfE').2.2.2
  · show 0 < (impactThermal _).radius1deg
    simp only [impactThermal]
    exact (calculateThermalRadiation_pos _ hfE').1
  · show 0 < (impactThermal _).radius2deg
    simp only [impactThermal]
    exact (calculateThermalRadiation_pos _ hfE').2.1
  · show 0 < (impactThermal _).radius3deg
    simp only [impactThermal]
    exact (calculateThermalRadiation_pos _ hfE').2.2.1

/-- Witness for C10: a 100 m body at 20 km/s, density 3000, angle 0. -/
theorem angle_zero_zeroes_crater_and_blast_witness :
    ((0 : ℝ) < 100 ∧ (0 : ℝ) < 20 ∧ (0 : ℝ) < 3000 ∧
      calculateSurvivalDiameter 20 3000 ≤ 100) ∧
    ∃ f : Phase1Fields,
      (calculateImpact
        { diameter := 100, velocity := 20, angle := 0,
          composition := AsteroidComposition.custom 3000,
          latitude := 0, longitude := 0 }).phase1 = some f ∧
      f.craterDiameter = 0 ∧ f.craterDepth = 0 ∧
      f.blastRadius1psi = 0 ∧ f.blastRadius5psi = 0 ∧ f.blastRadius10psi = 0 ∧
      (∀ e ∈ f.overpressureRadii, e.radius = 0) ∧
      0 < f.fireball.radius ∧
      0 < f.thermalRadius1deg ∧ 0 < f.thermalRadius2deg ∧ 0 < f.thermalRadius3deg := by
  have hsd : calculateSurvivalDiameter 20 3000 ≤ 100 := by
    simp only [calculateSurvivalDiameter]
    norm_num [Real.sqrt_one, Real.one_rpow]
  exact ⟨⟨by norm_num, by norm_num, by norm_num, hsd⟩,
    angle_zero_zeroes_crater_and_blast 100 20 3000 0 0 (by norm_num) (by norm_num)
      (by norm_num) hsd⟩

/-! ## Claim C4: monotonicity in the impactor diameter -/

theorem calculateMassLossRatio_nonneg {d v rho : ℝ} (hd : 0 < d) (hrho : 0 < rho) :
    0 ≤ calculateMassLossRatio d v rho := by
  simp only [calculateMassLossRatio]
  refine le_min ?_ (by norm_num)
  have h1 : (0 : ℝ) ≤ 6 / d := div_nonneg (by norm_num) hd.le
  have h2 : (0 : ℝ) ≤ (v / 20) ^ 2 := sq_nonneg _
  have h3 : (0 : ℝ) ≤ 3000 / rho := div_nonneg (by norm_num) hrho.le
  positivity

theorem calculateMassLossRatio_anti {d1 d2 v rho : ℝ}
    (hd1 : 0 < d1) (hdd : d1 ≤ d2) (hrho : 0 < rho) :
    calculateMassLossRatio d2 v rho ≤ calculateMassLossRatio d1 v rho := by
  simp only [calculateMassLossRatio]
  refine min_le_min ?_ le_rfl
  have h6 : (6 : ℝ) / d2 ≤ 6 / d1 := by gcongr
  have h2 : (0 : ℝ) ≤ (v / 20) ^ 2 := sq_nonneg _
  have h3 : (0 : ℝ) ≤ 3000 / rho := div_nonneg (by norm_num) hrho.le
  have h6n : (0 : ℝ) ≤ 6 / d2 := div_nonneg (by norm_num) (by linarith)
  gcongr

theorem calculateFinalVelocity_mono {d1 d2 v rho : ℝ}
    (hd1 : 0 < d1) (hdd : d1 ≤ d2) (hv : 0 < v) (hrho : 0 < rho) :
    calculateFinalVelocity v d1 rho ≤ calculateFinalVelocity v d2 rho := by
  simp only [calculateFinalVelocity]
  have hmlr := calculateMassLossRatio_anti (v := v) hd1 hdd hrho
  have : max (1 - calculateMassLossRatio d1 v rho * 0.3) 0.5 ≤
      max (1 - calculateMassLossRatio d2 v rho * 0.3) 0.5 :=
    max_le_max (by nlinarith) le_rfl
  nlinarith [this]

theorem calculateMass_strict {d1 d2 rho : ℝ} (hd1 : 0 < d1) (hdd : d1 < d2) (hrho : 0 < rho) :
    calculateMass d1 rho < calculateMass d2 rho := by
  simp only [calculateMass]
  have h3 : (d1 / 2) ^ 3 < (d2 / 2) ^ 3 :=
    pow_lt_pow_left₀ (by linarith) (by linarith) (by norm_num)
  have hfac : (0 : ℝ) < 4 / 3 * Real.pi := by positivity
  nlinarith [mul_lt_mul_of_pos_right (mul_lt_mul_of_pos_left h3 hfac) hrho]

theorem finalMass_strict {d1 d2 v rho : ℝ}
    (hd1 : 0 < d1) (hdd : d1 < d2) (hv : 0 < v) (hrho : 0 < rho) :
    calculateFinalMass (calculateMass d1 rho) d1 v rho <
      calculateFinalMass (calculateMass d2 rho) d2 v rho := by
  simp only [calculateFinalMass]
  have hmlr21 := calculateMassLossRatio_anti (v := v) hd1 hdd.le hrho
  have hmlr1le := calculateMassLossRatio_le d1 v rho
  have hmlr2nn := calculateMassLossRatio_nonneg (v := v) (lt_trans hd1 hdd) hrho
  have hm1 := calculateMass_pos hd1 hrho
  have hm2 := calculateMass_pos (lt_trans hd1 hdd) hrho
  have hmm := calculateMass_strict hd1 hdd hrho
  nlinarith

theorem finalEnergy_strict {m1 m2 w1 w2 : ℝ}
    (hm1 : 0 < m1) (hm : m1 < m2) (hw1 : 0 < w1) (hw : w1 ≤ w2) :
    calculateKineticEnergy m1 w1 < calculateKineticEnergy m2 w2 := by
  simp only [calculateKineticEnergy]
  have h1 : (w1 * 1000) ^ 2 ≤ (w2 * 1000) ^ 2 := by nlinarith
  have h0 : (0 : ℝ) < (w1 * 1000) ^ 2 := pow_pos (by nlinarith) 2
  nlinarith

theorem projectileMass_eq {fm rho : ℝ} (hfm : 0 < fm) (hrho : 0 < rho) :
    4 / 3 * Real.pi * ((fm / rho * 6 / Real.pi) ^ ((1 : ℝ) / 3) / 2) ^ 3 * rho = fm := by
  have hx : (0 : ℝ) < fm / rho * 6 / Real.pi :=
    div_pos (mul_pos (div_pos hfm hrho) (by norm_num)) Real.pi_pos
  have hcube : ((fm / rho * 6 / Real.pi) ^ ((1 : ℝ) / 3)) ^ 3 = fm / rho * 6 / Real.pi := by
    rw [← Real.rpow_natCast ((fm / rho * 6 / Real.pi) ^ ((1 : ℝ) / 3)) 3,
      ← Real.rpow_mul hx.le]
    norm_num
  rw [div_pow, hcube]
  have hpi := Real.pi_ne_zero
  field_simp
  ring

theorem calculateCraterDiameter_closed {m w s : ℝ} (hm : 0 < m) (hw : 0 < w) (hs : 0 < s)
    (v : ℝ) :
    calculateCraterDiameter (calculateKineticEnergy m w * s) v m =
      (1.161 * (0.5 * (w * 1000) ^ 2 * s / (2700 * 9.81)) ^ (0.25 : ℝ) *
        (2700 : ℝ) ^ ((1 : ℝ) / 12)) * m ^ ((1 : ℝ) / 6) := by
  simp only [calculateCraterDiameter, calculateKineticEnergy,
    PHYSICS_CONSTANTS.EARTH_CRUST_DENSITY, PHYSICS_CONSTANTS.EARTH_GRAVITY]
  have hA : (0 : ℝ) < 0.5 * (w * 1000) ^ 2 * s / (2700 * 9.81) := by
    have : (0 : ℝ) < (w * 1000) ^ 2 := pow_pos (by nlinarith) 2
    positivity
  have hsplit : 0.5 * m * (w * 1000) ^ 2 * s / (2700 * 9.81) =
      m * (0.5 * (w * 1000) ^ 2 * s / (2700 * 9.81)) := by ring
  rw [hsplit, Real.mul_rpow hm.le hA.le]
  have hmdiv : (0 : ℝ) ≤ m / 2700 := div_nonneg hm.le (by norm_num)
  have hstep1 : ((m / 2700) ^ ((1 : ℝ) / 3)) ^ (-0.25 : ℝ) =
      (m / 2700) ^ (-(1 : ℝ) / 12) := by
    rw [← Real.rpow_mul hmdiv]
    norm_num
  have hstep2 : (m / 2700 : ℝ) ^ (-(1 : ℝ) / 12) =
      m ^ (-(1 : ℝ) / 12) * (2700 : ℝ) ^ ((1 : ℝ) / 12) := by
    rw [Real.div_rpow hm.le (by norm_num : (0 : ℝ) ≤ 2700)]
    rw [div_eq_mul_inv, ← Real.rpow_neg (by norm_num : (0 : ℝ) ≤ 2700)]
    norm_num
  rw [hstep1, hstep2]
  have hcollect : m ^ (0.25 : ℝ) * m ^ (-(1 : ℝ) / 12) = m ^ ((1 : ℝ) / 6) := by
    rw [← Real.rpow_add hm]
    norm_num
  calc 1.161 * (m ^ (0.25 : ℝ) * (0.5 * (w * 1000) ^ 2 * s / (2700 * 9.81)) ^ (0.25 : ℝ)) *
        (m ^ (-(1 : ℝ) / 12) * (2700 : ℝ) ^ ((1 : ℝ) / 12))
      = 1.161 * (0.5 * (w * 1000) ^ 2 * s / (2700 * 9.81)) ^ (0.25 : ℝ) *
          (2700 : ℝ) ^ ((1 : ℝ) / 12) * (m ^ (0.25 : ℝ) * m ^ (-(1 : ℝ) / 12)) := by ring
    _ = (1.161 * (0.5 * (w * 1000) ^ 2 * s / (2700 * 9.81)) ^ (0.25 : ℝ) *
          (2700 : ℝ) ^ ((1 : ℝ) / 12)) * m ^ ((1 : ℝ) / 6) := by rw [hcollect]

theorem craterDiameter_coupled_strict {m1 m2 w1 w2 s : ℝ} (v1 v2 : ℝ)
    (hm1 : 0 < m1) (hm : m1 < m2) (hw1 : 0 < w1) (hw : w1 ≤ w2) (hs : 0 < s) :
    calculateCraterDiameter (calculateKineticEnergy m1 w1 * s) v1 m1 <
      calculateCraterDiameter (calculateKineticEnergy m2 w2 * s) v2 m2 := by
  rw [calculateCraterDiameter_closed hm1 hw1 hs v1,
    calculateCraterDiameter_closed (lt_trans hm1 hm) (lt_of_lt_of_le hw1 hw) hs v2]
  have hA1 : (0 : ℝ) < 0.5 * (w1 * 1000) ^ 2 * s / (2700 * 9.81) := by
    have : (0 : ℝ) < (w1 * 1000) ^ 2 := pow_pos (by nlinarith) 2
    positivity
  have hA12 : 0.5 * (w1 * 1000) ^ 2 * s / (2700 * 9.81) ≤
      0.5 * (w2 * 1000) ^ 2 * s / (2700 * 9.81) := by
    have : (w1 * 1000) ^ 2 ≤ (w2 * 1000) ^ 2 := by nlinarith
    have hs' := hs.le
    gcongr
  have hC1 : (0 : ℝ) < 1.161 * (0.5 * (w1 * 1000) ^ 2 * s / (2700 * 9.81)) ^ (0.25 : ℝ) *
      (2700 : ℝ) ^ ((1 : ℝ) / 12) := by
    have := Real.rpow_pos_of_pos hA1 (0.25 : ℝ)
    have h27 : (0 : ℝ) < (2700 : ℝ) ^ ((1 : ℝ) / 12) :=
      Real.rpow_pos_of_pos (by norm_num) _
    nlinarith
  have hCle : 1.161 * (0.5 * (w1 * 1000) ^ 2 * s / (2700 * 9.81)) ^ (0.25 : ℝ) *
      (2700 : ℝ) ^ ((1 : ℝ) / 12) ≤
      1.161 * (0.5 * (w2 * 1000) ^ 2 * s / (2700 * 9.81)) ^ (0.25 : ℝ) *
      (2700 : ℝ) ^ ((1 : ℝ) / 12) := by
    have hr := Real.rpow_le_rpow hA1.le hA12 (by norm_num : (0 : ℝ) ≤ 0.25)
    have h27 : (0 : ℝ) ≤ (2700 : ℝ) ^ ((1 : ℝ) / 12) :=
      (Real.rpow_pos_of_pos (by norm_num) _).le
    nlinarith
  have hm16 : m1 ^ ((1 : ℝ) / 6) < m2 ^ ((1 : ℝ) / 6) :=
    Real.rpow_lt_rpow hm1.le hm (by norm_num)
  have hm16pos : (0 : ℝ) < m1 ^ ((1 : ℝ) / 6) := Real.rpow_pos_of_pos hm1 _
  have hC2 : (0 : ℝ) < 1.161 * (0.5 * (w2 * 1000) ^ 2 * s / (2700 * 9.81)) ^ (0.25 : ℝ) *
      (2700 : ℝ) ^ ((1 : ℝ) / 12) := lt_of_lt_of_le hC1 hCle
  nlinarith

theorem calculateOverpressureRadius_strict {E1 E2 P : ℝ}
    (hE1 : 0 ≤ E1) (hE : E1 < E2) (hP : 0 < P) :
    calculateOverpressureRadius E1 P < calculateOverpressureRadius E2 P := by
  simp only [calculateOverpressureRadius]
  have hden : (0 : ℝ) < 4 * Real.pi * P := by
    have := Real.pi_pos
    nlinarith
  have h1 : (0 : ℝ) ≤ E1 / (4 * Real.pi * P) := div_nonneg hE1 hden.le
  have h2 : E1 / (4 * Real.pi * P) < E2 / (4 * Real.pi * P) := by gcongr
  rw [max_eq_left (Real.rpow_nonneg h1 _),
    max_eq_left (Real.rpow_nonneg (le_trans h1 h2.le) _)]
  exact Real.rpow_lt_rpow h1 h2 (by norm_num)

theorem calculateFireball_radius_strict {E1 E2 : ℝ} (hE1 : 0 < E1) (hE : E1 < E2) :
    (calculateFireball E1).radius < (calculateFireball E2).radius := by
  simp only [calculateFireball]
  have h1 : (E1 / 4.184e9 : ℝ) < E2 / 4.184e9 := by gcongr
  have h2 : (E1 / 4.184e9 : ℝ) ^ (0.4 : ℝ) < (E2 / 4.184e9) ^ (0.4 : ℝ) :=
    Real.rpow_lt_rpow (by positivity) h1 (by norm_num)
  nlinarith

theorem calculateBurnRadius_strict_in_energy {E1 E2 t : ℝ}
    (hE1 : 0 < E1) (hE : E1 < E2) (ht : 0 < t) :
    calculateBurnRadius (calculateFireball E1) t <
      calculateBurnRadius (calculateFireball E2) t := by
  have hform : ∀ E : ℝ, 0 < E →
      calculateBurnRadius (calculateFireball E) t =
        max (Real.sqrt (E * 0.35 / (4 * Real.pi * (t * 10000))))
          (calculateFireball E).radius := by
    intro E hEp
    rw [calculateBurnRadius_eq]
    congr 1
    have hR := calculateFireball_radius_pos hEp
    have harg : (calculateFireball E).totalRadiantEnergy /
        (4 * Real.pi * (calculateFireball E).radius ^ 2) / (t * 10000) =
        E * 0.35 / (4 * Real.pi * (t * 10000)) * ((calculateFireball E).radius ^ 2)⁻¹ := by
      have hfi : (calculateFireball E).totalRadiantEnergy = E * 0.35 := rfl
      rw [hfi]
      have hpi := Real.pi_ne_zero
      field_simp
      ring
    rw [harg, Real.sqrt_mul (by positivity), Real.sqrt_inv, Real.sqrt_sq hR.le]
    field_simp
    ring
  rw [hform E1 hE1, hform E2 (lt_trans hE1 hE)]
  refine max_lt_max ?_ (calculateFireball_radius_strict hE1 hE)
  apply Real.sqrt_lt_sqrt (by positivity)
  have hden : (0 : ℝ) < 4 * Real.pi * (t * 10000) := by
    have := Real.pi_pos
    nlinarith
  gcongr

/-- C4 (amended): holding velocity, density and a fixed angle with
`0 < angle <= 90` (so the `sin(angle)` coupling is positive), strictly
increasing the impactor diameter within the surviving regime strictly
increases `craterDiameter`, `blastRadius1psi` and `thermalRadius1deg`. -/
theorem diameter_monotonicity
    (d1 d2 velocity angle density lat lng : ℝ)
    (hd1 : 0 < d1) (hdd : d1 < d2) (hv : 0 < velocity) (hrho : 0 < density)
    (ha0 : 0 < angle) (ha90 : angle ≤ 90)
    (hsurv : calculateSurvivalDiameter velocity density ≤ d1) :
    ∃ f1 f2 : Phase1Fields,
      (calculateImpact
        { diameter := d1, velocity := velocity, angle := angle,
          composition := AsteroidComposition.custom density,
          latitude := lat, longitude := lng }).phase1 = some f1 ∧
      (calculateImpact
        { diameter := d2, velocity := velocity, angle := angle,
          composition := AsteroidComposition.custom density,
          latitude := lat, longitude := lng }).phase1 = some f2 ∧
      f1.craterDiameter < f2.craterDiameter ∧
      f1.blastRadius1psi < f2.blastRadius1psi ∧
      f1.thermalRadius1deg < f2.thermalRadius1deg := by
  have hden : getAsteroidDensity (AsteroidComposition.custom density) = density := by
    simp [getAsteroidDensity, hrho.ne']
  have hb1 := calculateImpact_surviving
    { diameter := d1, velocity := velocity, angle := angle,
      composition := AsteroidComposition.custom density, latitude := lat, longitude := lng }
    (by simpa [impactDensity, hden] using hsurv)
  have hb2 := calculateImpact_surviving
    { diameter := d2, velocity := velocity, angle := angle,
      composition := AsteroidComposition.custom density, latitude := lat, longitude := lng }
    (by simpa [impactDensity, hden] using hsurv.trans hdd.le)
  have hd2' : 0 < d2 := lt_trans hd1 hdd
  have hidr1 : impactDensity
      { diameter := d1, velocity := velocity, angle := angle,
        composition := AsteroidComposition.custom density,
        latitude := lat, longitude := lng } = density := by
    simp [impactDensity, hden]
  have hidr2 : impactDensity
      { diameter := d2, velocity := velocity, angle := angle,
        composition := AsteroidComposition.custom density,
        latitude := lat, longitude := lng } = density := by
    simp [impactDensity, hden]
  have hifv1 : impactFinalVelocity
      { diameter := d1, velocity := velocity, angle := angle,
        composition := AsteroidComposition.custom density,
        latitude := lat, longitude := lng } = calculateFinalVelocity velocity d1 density := by
    simp [impactFinalVelocity, hidr1]
  have hifv2 : impactFinalVelocity
      { diameter := d2, velocity := velocity, angle := angle,
        composition := AsteroidComposition.custom density,
        latitude := lat, longitude := lng } = calculateFinalVelocity velocity d2 density := by
    simp [impactFinalVelocity, hidr2]
  have hifm1 : impactFinalMass
      { diameter := d1, velocity := velocity, angle := angle,
        composition := AsteroidComposition.custom density,
        latitude := lat, longitude := lng } =
      calculateFinalMass (calculateMass d1 density) d1 velocity density := by
    simp [impactFinalMass, impactMass, hidr1]
  have hifm2 : impactFinalMass
      { diameter := d2, velocity := velocity, angle := angle,
        composition := AsteroidComposition.custom density,
        latitude := lat, longitude := lng } =
      calculateFinalMass (calculateMass d2 density) d2 velocity density := by
    simp [impactFinalMass, impactMass, hidr2]
  have hife1 : impactFinalEnergy
      { diameter := d1, velocity := velocity, angle := angle,
        composition := AsteroidComposition.custom density,
        latitude := lat, longitude := lng } =
      calculateKineticEnergy (calculateFinalMass (calculateMass d1 density) d1 velocity density)
        (calculateFinalVelocity velocity d1 density) := by
    simp [impactFinalEnergy, hifm1, hifv1]
  have hife2 : impactFinalEnergy
      { diameter := d2, velocity := velocity, angle := angle,
        composition := AsteroidComposition.custom density,
        latitude := lat, longitude := lng } =
      calculateKineticEnergy (calculateFinalMass (calculateMass d2 density) d2 velocity density)
        (calculateFinalVelocity velocity d2 density) := by
    simp [impactFinalEnergy, hifm2, hifv2]
  have hm1 := calculateMass_pos hd1 hrho
  have hm2 := calculateMass_pos hd2' hrho
  have hfm1 : 0 < calculateFinalMass (calculateMass d1 density) d1 velocity density :=
    calculateFinalMass_pos hm1
  have hfv1 : 0 < calculateFinalVelocity velocity d1 density :=
    calculateFinalVelocity_pos _ _ hv
  have hfmlt := finalMass_strict hd1 hdd hv hrho
  have hfvle := calculateFinalVelocity_mono hd1 hdd.le hv hrho
  have hfE1 : 0 < calculateKineticEnergy
      (calculateFinalMass (calculateMass d1 density) d1 velocity density)
      (calculateFinalVelocity velocity d1 density) :=
    calculateKineticEnergy_pos hfm1 hfv1
  have hfElt := finalEnergy_strict hfm1 hfmlt hfv1 hfvle
  have hsin : 0 < Real.sin (angle * Real.pi / 180) := by
    apply Real.sin_pos_of_pos_of_lt_pi
    · exact div_pos (mul_pos ha0 Real.pi_pos) (by norm_num)
    · rw [div_lt_iff (by norm_num : (0 : ℝ) < 180)]
      nlinarith [Real.pi_pos]
  have hifd1 : impactFinalDiameter
      { diameter := d1, velocity := velocity, angle := angle,
        composition := AsteroidComposition.custom density,
        latitude := lat, longitude := lng } =
      (calculateFinalMass (calculateMass d1 density) d1 velocity density / density * 6 /
        Real.pi) ^ ((1 : ℝ) / 3) := by
    simp [impactFinalDiameter, hifm1, hidr1]
  have hifd2 : impactFinalDiameter
      { diameter := d2, velocity := velocity, angle := angle,
        composition := AsteroidComposition.custom density,
        latitude := lat, longitude := lng } =
      (calculateFinalMass (calculateMass d2 density) d2 velocity density / density * 6 /
        Real.pi) ^ ((1 : ℝ) / 3) := by
    simp [impactFinalDiameter, hifm2, hidr2]
  refine ⟨_, _, hb1.2.1, hb2.2.1, ?_, ?_, ?_⟩
  · show (impactCrater _).diameter < (impactCrater _).diameter
    simp only [impactCrater, calculateCrater, hidr1, hidr2, hifd1, hifd2, hife1, hife2,
      hifv1, hifv2]
    rw [projectileMass_eq hfm1 hrho,
      projectileMass_eq (calculateFinalMass_pos hm2) hrho]
    exact craterDiameter_coupled_strict _ _ hfm1 hfmlt hfv1 hfvle hsin
  · show (impactBlast _).radius1psi < (impactBlast _).radius1psi
    simp only [impactBlast, calculateBlastWave, calculateEffectiveEnergy, hife1, hife2]
    apply calculateOverpressureRadius_strict
    · exact (mul_pos hfE1 hsin).le
    · exact mul_lt_mul_of_pos_right hfElt hsin
    · norm_num [DAMAGE_THRESHOLDS.OVERPRESSURE.LIGHT_DAMAGE]
  · show (impactThermal _).radius1deg < (impactThermal _).radius1deg
    simp only [impactThermal, calculateThermalRadiation, hife1, hife2]
    exact calculateBurnRadius_strict_in_energy hfE1 hfElt
      (by norm_num [DAMAGE_THRESHOLDS.THERMAL.FIRST_DEGREE_BURN])

/-- Counterexample to C4 as stated: at the valid fixed angle 0 both the
crater diameter and the 1 psi blast radius are 0 for surviving diameters
100 m and 200 m alike, so increasing the diameter does not strictly
increase them. -/
theorem diameter_monotonicity_counterexample :
    calculateSurvivalDiameter 20 (getAsteroidDensity (AsteroidComposition.custom 3000)) ≤ 100 ∧
    (100 : ℝ) < 200 ∧
    (calculateImpact
      { diameter := 100, velocity := 20, angle := 0,
        composition := AsteroidComposition.custom 3000,
        latitude := 0, longitude := 0 }).phase1.map Phase1Fields.craterDiameter = some 0 ∧
    (calculateImpact
      { diameter := 200, velocity := 20, angle := 0,
        composition := AsteroidComposition.custom 3000,
        latitude := 0, longitude := 0 }).phase1.map Phase1Fields.craterDiameter = some 0 ∧
    (calculateImpact
      { diameter := 100, velocity := 20, angle := 0,
        composition := AsteroidComposition.custom 3000,
        latitude := 0, longitude := 0 }).phase1.map Phase1Fields.blastRadius1psi = some 0 ∧
    (calculateImpact
      { diameter := 200, velocity := 20, angle := 0,
        composition := AsteroidComposition.custom 3000,
        latitude := 0, longitude := 0 }).phase1.map Phase1Fields.blastRadius1psi = some 0 := by
  have hden : getAsteroidDensity (AsteroidComposition.custom 3000) = 3000 := by
    norm_num [getAsteroidDensity]
  have hsd : calculateSurvivalDiameter 20 (getAsteroidDensity (AsteroidComposition.custom 3000)) ≤ 100 := by
    rw [hden]
    simp only [calculateSurvivalDiameter]
    norm_num [Real.sqrt_one, Real.one_rpow]
  have hb1 := calculateImpact_surviving
    { diameter := 100, velocity := 20, angle := 0,
      composition := AsteroidComposition.custom 3000, latitude := 0, longitude := 0 }
    (by simpa [impactDensity] using hsd)
  have hb2 := calculateImpact_surviving
    { diameter := 200, velocity := 20, angle := 0,
      composition := AsteroidComposition.custom 3000, latitude := 0, longitude := 0 }
    (by simpa [impactDensity] using hsd.trans (by norm_num))
  refine ⟨hsd, by norm_num, ?_, ?_, ?_, ?_⟩
  · rw [hb1.2.1]
    show some (impactCrater _).diameter = some 0
    simp only [impactCrater]
    exact congrArg some (calculateCrater_angle_zero _ _ _ _).1
  · rw [hb2.2.1]
    show some (impactCrater _).diameter = some 0
    simp only [impactCrater]
    exact congrArg some (calculateCrater_angle_zero _ _ _ _).1
  · rw [hb1.2.1]
    show some (impactBlast _).radius1psi = some 0
    simp only [impactBlast]
    exact congrArg some (calculateBlastWave_angle_zero _).1
  · rw [hb2.2.1]
    show some (impactBlast _).radius1psi = some 0
    simp only [impactBlast]
    exact congrArg some (calculateBlastWave_angle_zero _).1

/-- Witness for C4 at diameters 100 m and 200 m, 20 km/s, 45 degrees,
density 3000. -/
theorem diameter_monotonicity_witness :
    ((0 : ℝ) < 100 ∧ (100 : ℝ) < 200 ∧ (0 : ℝ) < 20 ∧ (0 : ℝ) < 3000 ∧
      (0 : ℝ) < 45 ∧ (45 : ℝ) ≤ 90 ∧ calculateSurvivalDiameter 20 3000 ≤ 100) ∧
    ∃ f1 f2 : Phase1Fields,
      (calculateImpact
        { diameter := 100, velocity := 20, angle := 45,
          composition := AsteroidComposition.custom 3000,
          latitude := 0, longitude := 0 }).phase1 = some f1 ∧
      (calculateImpact
        { diameter := 200, velocity := 20, angle := 45,
          composition := AsteroidComposition.custom 3000,
          latitude := 0, longitude := 0 }).phase1 = some f2 ∧
      f1.craterDiameter < f2.craterDiameter ∧
      f1.blastRadius1psi < f2.blastRadius1psi ∧
      f1.thermalRadius1deg < f2.thermalRadius1deg := by
  have hsd : calculateSurvivalDiameter 20 3000 ≤ 100 := by
    simp only [calculateSurvivalDiameter]
    norm_num [Real.sqrt_one, Real.one_rpow]
  exact ⟨⟨by norm_num, by norm_num, by norm_num, by norm_num, by norm_num, by norm_num, hsd⟩,
    diameter_monotonicity 100 200 20 45 3000 0 0 (by norm_num) (by norm_num) (by norm_num)
      (by norm_num) (by norm_num) (by norm_num) hsd⟩

/-! ## Claim C9: a significant seismic result can have an empty zone list -/

theorem calculateMagnitude_eq_ten_of_large {E : ℝ} (hE : 1e27 ≤ E) :
    calculateMagnitude E = 10 := by
  simp only [calculateMagnitude]
  have h0 : (0 : ℝ) < E * 0.01 := by nlinarith
  have h25 : ((10 : ℝ) ^ (25 : ℝ)) ≤ E * 0.01 := by
    rw [show (25 : ℝ) = ((25 : ℕ) : ℝ) by norm_num, Real.rpow_natCast]
    nlinarith [show ((10 : ℝ) ^ (25 : ℕ)) = 1e25 by norm_num]
  have hlog : (25 : ℝ) ≤ Real.logb 10 (E * 0.01) :=
    (Real.le_logb_iff_rpow_le (by norm_num) h0).mpr h25
  have hraw : (10 : ℝ) ≤ (Real.logb 10 (E * 0.01) - 9.1) / 1.5 := by
    rw [le_div_iff (by norm_num)]
    linarith
  rw [min_eq_right hraw, max_eq_right (by norm_num)]

theorem craterDiameter_lower_bound {E m : ℝ} (v : ℝ)
    (hE : 1e45 ≤ E) (hm0 : 0 < m) (hm : m ≤ 2e39) :
    1e7 ≤ calculateCraterDiameter E v m := by
  simp only [calculateCraterDiameter,
    PHYSICS_CONSTANTS.EARTH_CRUST_DENSITY, PHYSICS_CONSTANTS.EARTH_GRAVITY]
  have hA : ((10 : ℝ) ^ (40 : ℕ)) ≤ E / (2700 * 9.81) := by
    rw [le_div_iff (by norm_num)]
    nlinarith [show ((10 : ℝ) ^ (40 : ℕ)) = 1e40 by norm_num]
  have hA0 : (0 : ℝ) ≤ (10 : ℝ) ^ (40 : ℕ) := by positivity
  have hstep2 : ((10 : ℝ) ^ (40 : ℕ)) ^ (0.25 : ℝ) ≤ (E / (2700 * 9.81)) ^ (0.25 : ℝ) :=
    Real.rpow_le_rpow hA0 hA (by norm_num)
  have hstep3 : ((10 : ℝ) ^ (40 : ℕ)) ^ (0.25 : ℝ) = 1e10 := by
    rw [← Real.rpow_natCast 10 40, ← Real.rpow_mul (by norm_num : (0 : ℝ) ≤ 10)]
    rw [show ((40 : ℕ) : ℝ) * 0.25 = ((10 : ℕ) : ℝ) by norm_num, Real.rpow_natCast]
    norm_num
  have hL : ((m / 2700) ^ ((1 : ℝ) / 3)) ^ (-0.25 : ℝ) = ((m / 2700) ^ ((1 : ℝ) / 12))⁻¹ := by
    rw [← Real.rpow_mul (div_nonneg hm0.le (by norm_num)),
      show (1 : ℝ) / 3 * (-0.25) = -((1 : ℝ) / 12) by norm_num,
      Real.rpow_neg (div_nonneg hm0.le (by norm_num))]
  have hm12 : (m / 2700 : ℝ) ^ ((1 : ℝ) / 12) ≤ 1e3 := by
    have hb : (m / 2700 : ℝ) ≤ (10 : ℝ) ^ (36 : ℕ) := by
      rw [div_le_iff (by norm_num)]
      nlinarith [show ((10 : ℝ) ^ (36 : ℕ)) = 1e36 by norm_num]
    have := Real.rpow_le_rpow (div_nonneg hm0.le (by norm_num)) hb
      (by norm_num : (0 : ℝ) ≤ (1 : ℝ) / 12)
    have hcollapse : ((10 : ℝ) ^ (36 : ℕ)) ^ ((1 : ℝ) / 12) = 1e3 := by
      rw [← Real.rpow_natCast 10 36, ← Real.rpow_mul (by norm_num : (0 : ℝ) ≤ 10)]
      rw [show ((36 : ℕ) : ℝ) * ((1 : ℝ) / 12) = ((3 : ℕ) : ℝ) by norm_num,
        Real.rpow_natCast]
      norm_num
    linarith [hcollapse ▸ this]
  have hm12pos : (0 : ℝ) < (m / 2700 : ℝ) ^ ((1 : ℝ) / 12) :=
    Real.rpow_pos_of_pos (div_pos hm0 (by norm_num)) _
  have hinv : (1e-3 : ℝ) ≤ ((m / 2700) ^ ((1 : ℝ) / 12))⁻¹ := by
    rw [le_inv_comm₀ (by norm_num) hm12pos]
    calc (m / 2700 : ℝ) ^ ((1 : ℝ) / 12) ≤ 1e3 := hm12
      _ = (1e-3 : ℝ)⁻¹ := by norm_num
  rw [hL]
  have hApos : (0 : ℝ) < (E / (2700 * 9.81)) ^ (0.25 : ℝ) :=
    Real.rpow_pos_of_pos (by positivity) _
  nlinarith [hstep3 ▸ hstep2, hinv, hApos, hm12pos]

theorem calculateIntensityZones_empty_of_large_crater (loc : Location) {cd : ℝ}
    (hcd : 1e7 ≤ cd) :
    calculateIntensityZones 10 loc cd = [] := by
  have hfloor : ⌊(10 : ℝ) * 1.5 + 2⌋ = 17 := by
    rw [Int.floor_eq_iff]
    norm_num
  have hbase : ((min 12 (max 3 ⌊(10 : ℝ) * 1.5 + 2⌋)).toNat) = 12 := by
    rw [hfloor]
    decide
  simp only [calculateIntensityZones, hbase]
  have hnil : (intensitiesFrom 12).enum.filterMap (intensityZoneOfLevel 10 loc cd 12) = [] := by
    rw [List.filterMap_eq_nil_iff]
    have hrad : ∀ i : ℕ, 4 ≤ i → calculateIntensityRadius 10 (i : ℝ) loc ≤ 1e7 := by
      intro i hi
      rw [calculateIntensityRadius_eq]
      have hi' : (4 : ℝ) ≤ (i : ℝ) := by exact_mod_cast hi
      have hexp : (2.0 + 1.5 * 10 + 0 - (i : ℝ)) / 3.5 ≤ 4 := by
        rw [div_le_iff (by norm_num)]
        nlinarith
      have h10 : (10 : ℝ) ^ ((2.0 + 1.5 * 10 + 0 - (i : ℝ)) / 3.5) ≤ (10 : ℝ) ^ (4 : ℝ) :=
        Real.rpow_le_rpow_of_exponent_le (by norm_num) hexp
      have h4 : (10 : ℝ) ^ (4 : ℝ) = 10000 := by
        rw [show (4 : ℝ) = ((4 : ℕ) : ℝ) by norm_num, Real.rpow_natCast]
        norm_num
      nlinarith
    have hbound : ∀ i : ℕ, 4 ≤ i → i ≤ 12 →
        calculateIntensityRadius 10 (i : ℝ) loc ≤
          max (cd * (2 : ℝ) ^ ((((12 : ℕ) : ℝ) - (i : ℝ)) / 2)) 500 := by
      intro i hi4 hi12
      have hi12' : (i : ℝ) ≤ 12 := by exact_mod_cast hi12
      have hmul1 : (1 : ℝ) ≤ (2 : ℝ) ^ ((((12 : ℕ) : ℝ) - (i : ℝ)) / 2) := by
        apply Real.one_le_rpow (by norm_num)
        push_cast
        linarith
      have hcd0 : (0 : ℝ) ≤ cd := by linarith
      calc calculateIntensityRadius 10 (i : ℝ) loc ≤ 1e7 := hrad i hi4
        _ ≤ cd := hcd
        _ ≤ cd * (2 : ℝ) ^ ((((12 : ℕ) : ℝ) - (i : ℝ)) / 2) := by nlinarith
        _ ≤ max (cd * (2 : ℝ) ^ ((((12 : ℕ) : ℝ) - (i : ℝ)) / 2)) 500 := le_max_left _ _
    intro a ha
    have henum : (intensitiesFrom 12).enum = [(0, 12), (1, 10), (2, 8), (3, 6), (4, 4)] := by
      rfl
    rw [henum] at ha
    fin_cases ha <;>
      · simp only [intensityZoneOfLevel]
        rw [if_neg (not_lt.mpr (hbound _ (by norm_num) (by norm_num)))]
  rw [hnil]
  rfl

/-- C9 is violated by the code: at diameter 1e12 m, velocity 20 km/s, angle
90, density 3000 the impact survives, the seismic magnitude clamps to 10
(significant), yet the crater-scaled minimum floor exceeds every attenuation
radius, so the zone list is empty and `effectRadius`, the maximum of an
empty spread (`-Infinity` in JS, bottom here), is taken anyway. -/
theorem seismic_significant_with_empty_zones :
    (calculateImpact
      { diameter := 1e12, velocity := 20, angle := 90,
        composition := AsteroidComposition.custom 3000,
        latitude := 0, longitude := 0 }).survivesAtmosphere = true ∧
    ∃ f : Phase2Fields,
      (calculateImpact
        { diameter := 1e12, velocity := 20, angle := 90,
          composition := AsteroidComposition.custom 3000,
          latitude := 0, longitude := 0 }).phase2 = some f ∧
      f.seismicMagnitude = 10 ∧
      f.seismicSignificant = true ∧
      f.seismicZones = [] ∧
      f.seismicRadius = ⊥ := by
  have hden : getAsteroidDensity (AsteroidComposition.custom 3000) = 3000 := by
    norm_num [getAsteroidDensity]
  have hsd : calculateSurvivalDiameter 20 3000 ≤ 1e12 := by
    simp only [calculateSurvivalDiameter]
    norm_num [Real.sqrt_one, Real.one_rpow]
  have hb := calculateImpact_surviving
    { diameter := 1e12, velocity := 20, angle := 90,
      composition := AsteroidComposition.custom 3000, latitude := 0, longitude := 0 }
    (by simpa [impactDensity, hden] using hsd)
  have hidr : impactDensity
      { diameter := 1e12, velocity := 20, angle := 90,
        composition := AsteroidComposition.custom 3000,
        latitude := 0, longitude := 0 } = 3000 := by
    simp [impactDensity, hden]
  have hifv : impactFinalVelocity
      { diameter := 1e12, velocity := 20, angle := 90,
        composition := AsteroidComposition.custom 3000,
        latitude := 0, longitude := 0 } = calculateFinalVelocity 20 1e12 3000 := by
    simp [impactFinalVelocity, hidr]
  have hifm : impactFinalMass
      { diameter := 1e12, velocity := 20, angle := 90,
        composition := AsteroidComposition.custom 3000,
        latitude := 0, longitude := 0 } =
      calculateFinalMass (calculateMass 1e12 3000) 1e12 20 3000 := by
    simp [impactFinalMass, impactMass, hidr]
  have hife : impactFinalEnergy
      { diameter := 1e12, velocity := 20, angle := 90,
        composition := AsteroidComposition.custom 3000,
        latitude := 0, longitude := 0 } =
      calculateKineticEnergy (calculateFinalMass (calculateMass 1e12 3000) 1e12 20 3000)
        (calculateFinalVelocity 20 1e12 3000) := by
    simp [impactFinalEnergy, hifm, hifv]
  have hifd : impactFinalDiameter
      { diameter := 1e12, velocity := 20, angle := 90,
        composition := AsteroidComposition.custom 3000,
        latitude := 0, longitude := 0 } =
      (calculateFinalMass (calculateMass 1e12 3000) 1e12 20 3000 / 3000 * 6 /
        Real.pi) ^ ((1 : ℝ) / 3) := by
    simp [impactFinalDiameter, hifm, hidr]
  have hhalf : ((1e12 : ℝ) / 2) ^ 3 = 1.25e35 := by norm_num
  have hm_lo : (1.5e39 : ℝ) ≤ calculateMass 1e12 3000 := by
    simp only [calculateMass]
    rw [hhalf]
    nlinarith [Real.pi_gt_three]
  have hm_hi : calculateMass 1e12 3000 ≤ 2e39 := by
    simp only [calculateMass]
    rw [hhalf]
    nlinarith [Real.pi_le_four]
  have hmlr_nn : (0 : ℝ) ≤ calculateMassLossRatio 1e12 20 3000 :=
    calculateMassLossRatio_nonneg (by norm_num) (by norm_num)
  have hmlr_le : calculateMassLossRatio 1e12 20 3000 ≤ 0.9 :=
    calculateMassLossRatio_le _ _ _
  have hfm_lo : (1.5e38 : ℝ) ≤ calculateFinalMass (calculateMass 1e12 3000) 1e12 20 3000 := by
    simp only [calculateFinalMass]
    nlinarith
  have hfm_hi : calculateFinalMass (calculateMass 1e12 3000) 1e12 20 3000 ≤ 2e39 := by
    simp only [calculateFinalMass]
    nlinarith
  have hfm_pos : 0 < calculateFinalMass (calculateMass 1e12 3000) 1e12 20 3000 :=
    calculateFinalMass_pos (calculateMass_pos (by norm_num) (by norm_num))
  have hfv_lo : (10 : ℝ) ≤ calculateFinalVelocity 20 1e12 3000 := by
    simp only [calculateFinalVelocity]
    have := le_max_right (1 - calculateMassLossRatio 1e12 20 3000 * 0.3) (0.5 : ℝ)
    nlinarith
  have hfv_hi : calculateFinalVelocity 20 1e12 3000 ≤ 20 := by
    simp only [calculateFinalVelocity]
    have hmax : max (1 - calculateMassLossRatio 1e12 20 3000 * 0.3) (0.5 : ℝ) ≤ 1 :=
      max_le (by nlinarith) (by norm_num)
    nlinarith
  have hfe_lo : (1e45 : ℝ) ≤ calculateKineticEnergy
      (calculateFinalMass (calculateMass 1e12 3000) 1e12 20 3000)
      (calculateFinalVelocity 20 1e12 3000) := by
    simp only [calculateKineticEnergy]
    have h1 : (1e4 : ℝ) ≤ calculateFinalVelocity 20 1e12 3000 * 1000 := by nlinarith
    have h2 : (1e8 : ℝ) ≤ (calculateFinalVelocity 20 1e12 3000 * 1000) ^ 2 := by nlinarith
    nlinarith [mul_le_mul hfm_lo h2 (by norm_num : (0 : ℝ) ≤ 1e8)
      (by linarith : (0 : ℝ) ≤ calculateFinalMass (calculateMass 1e12 3000) 1e12 20 3000)]
  have hcd : (1e7 : ℝ) ≤ (impactCrater
      { diameter := 1e12, velocity := 20, angle := 90,
        composition := AsteroidComposition.custom 3000,
        latitude := 0, longitude := 0 }).diameter := by
    simp only [impactCrater, calculateCrater, hife, hifv, hifd, hidr]
    have h90 : (90 : ℝ) * Real.pi / 180 = Real.pi / 2 := by ring
    rw [h90, Real.sin_pi_div_two, mul_one, projectileMass_eq hfm_pos (by norm_num)]
    exact craterDiameter_lower_bound _ hfe_lo hfm_pos hfm_hi
  have hmag := calculateMagnitude_eq_ten_of_large
    (show (1e27 : ℝ) ≤ calculateKineticEnergy
      (calculateFinalMass (calculateMass 1e12 3000) 1e12 20 3000)
      (calculateFinalVelocity 20 1e12 3000) by linarith)
  have hzones := calculateIntensityZones_empty_of_large_crater
    (impactLocationOf
      { diameter := 1e12, velocity := 20, angle := 90,
        composition := AsteroidComposition.custom 3000,
        latitude := 0, longitude := 0 }) hcd
  refine ⟨hb.1, _, hb.2.2, ?_, ?_, ?_, ?_⟩
  · show (impactSeismic _).magnitude = 10
    simp only [impactSeismic, calculateSeismicEffects, hife, hmag]
    norm_num
  · show (impactSeismic _).significant = true
    simp only [impactSeismic, calculateSeismicEffects, hife, hmag]
    norm_num
  · show (impactSeismic _).zones = []
    simp only [impactSeismic, calculateSeismicEffects, hife, hmag]
    rw [if_neg (by norm_num : ¬((10 : ℝ) < 3.0))]
    exact hzones
  · show (impactSeismic _).effectRadius = ⊥
    simp only [impactSeismic, calculateSeismicEffects, hife, hmag]
    rw [if_neg (by norm_num : ¬((10 : ℝ) < 3.0))]
    show ((calculateIntensityZones 10 _ _).map _).maximum = ⊥
    rw [hzones]
    rfl
